import Mathlib

/-!
Shallow embedding of src/Contracts/TelemedicineSystem.sol (Solidity 0.8.20).

Modelling conventions:
* Addresses and bytes32 values are Nat; address(0) is 0.
* Each external function becomes a Lean function
  TeleState -> Env -> args -> Except String TeleState; a require failure
  becomes Except.error with the source's revert string, and an error means
  the whole call reverts (no state change), matching EVM semantics.
* Solidity mappings are total functions with the zero-value record as
  default, matching storage semantics.
* Checked uint256/uint96 overflow is not modelled: the affected quantities
  (entity counters incremented by one per call, block timestamps, point
  totals incremented by 10 or 20) cannot approach 2^96 or 2^256 in any
  reachable state.  Explicit uint48 casts in the source are modelled with
  mod 2^48.
* The SONIC/USDC tokens are external contracts, specified in the spec only
  at their interface: transfer and transferFrom return a Bool and a failed
  transfer moves nothing.  The core checks transferFrom results in
  _processPayment; _monetizeData and claimDataReward ignore the transfer
  result, exactly as in the source.
* keccak256 is modelled by executable injective functions; the development
  never relies on any property of real keccak beyond injectivity and (for
  one counterexample) the absence of a fixed point on a single word.
* The nonReentrant guard and the single-threaded transaction model make
  each call atomic; reentrancy is not representable here.
-/

abbrev Address := Nat

/-- One day in seconds, the source's `1 days` cooldown unit. -/
def oneDay : Nat := 86400

/-- MIN_BOOKING_BUFFER = 15 minutes. -/
def MIN_BOOKING_BUFFER : Nat := 900

/-- DATA_MONETIZATION_REWARD = 10 * 10^18 (10 SONIC tokens). -/
def DATA_MONETIZATION_REWARD : Nat := 10 * 10 ^ 18

/-- Thirty days in seconds, the prescription validity window. -/
def thirtyDays : Nat := 2592000

/-- Modulus of the uint48 type used for stored timestamps. -/
def UINT48_MOD : Nat := 2 ^ 48

inductive Role
  | Admin
  | Doctor
  | Patient
  | LabTech
  | Pharmacy
deriving DecidableEq

inductive AppointmentStatus
  | Pending
  | Confirmed
  | Completed
  | Cancelled
  | Emergency
deriving DecidableEq

inductive PaymentType
  | ETH
  | USDC
  | SONIC
deriving DecidableEq

inductive LabTestStatus
  | Requested
  | Collected
  | ResultsUploaded
  | Reviewed
deriving DecidableEq

inductive PrescriptionStatus
  | Generated
  | Verified
  | Fulfilled
deriving DecidableEq

inductive DataSharingStatus
  | Disabled
  | Enabled
deriving DecidableEq

structure GamificationData where
  mediPoints : Nat
  currentLevel : Nat
deriving DecidableEq

structure PatientRec where
  isRegistered : Bool
  encryptedSymmetricKey : String
  medicalHistoryHash : Nat
  gamification : GamificationData
  dataSharing : DataSharingStatus
  lastRewardTimestamp : Nat
deriving DecidableEq

structure DoctorRec where
  isVerified : Bool
  consultationFee : Nat
  licenseNumber : String
deriving DecidableEq

structure LabTechnicianRec where
  isVerified : Bool
  licenseNumber : String
deriving DecidableEq

structure PharmacyRec where
  isRegistered : Bool
  licenseNumber : String
deriving DecidableEq

structure Appointment where
  id : Nat
  patient : Address
  doctor : Address
  scheduledTimestamp : Nat
  status : AppointmentStatus
  fee : Nat
  paymentType : PaymentType
  videoCallLink : String
  isVideoCall : Bool
deriving DecidableEq

structure LabTestOrder where
  id : Nat
  patient : Address
  doctor : Address
  labTech : Address
  status : LabTestStatus
  testType : String
  sampleCollectionIpfsHash : String
  resultsIpfsHash : String
  orderedTimestamp : Nat
  completedTimestamp : Nat
deriving DecidableEq

structure Prescription where
  id : Nat
  patient : Address
  doctor : Address
  verificationCodeHash : Nat
  medicationDetails : String
  prescriptionIpfsHash : String
  status : PrescriptionStatus
  pharmacy : Address
  generatedTimestamp : Nat
  expirationTimestamp : Nat
deriving DecidableEq

structure AISymptomAnalysis where
  id : Nat
  patient : Address
  symptoms : String
  analysisIpfsHash : String
  doctorReviewed : Bool
deriving DecidableEq

/-- Zero value of the Patient struct: the content of `patients[a]` for a
never-registered address a. -/
def defaultPatient : PatientRec :=
  ⟨false, "", 0, ⟨0, 0⟩, DataSharingStatus.Disabled, 0⟩

def defaultDoctor : DoctorRec := ⟨false, 0, ""⟩

def defaultLabTechnician : LabTechnicianRec := ⟨false, ""⟩

def defaultPharmacy : PharmacyRec := ⟨false, ""⟩

/-- Zero value of the Appointment struct. -/
def defaultAppointment : Appointment :=
  ⟨0, 0, 0, 0, AppointmentStatus.Pending, 0, PaymentType.ETH, "", false⟩

/-- Zero value of the LabTestOrder struct: note the status field is
`Requested`, the first state of the lab-test machine. -/
def defaultLabTestOrder : LabTestOrder :=
  ⟨0, 0, 0, 0, LabTestStatus.Requested, "", "", "", 0, 0⟩

/-- Zero value of the Prescription struct: note the status field is
`Generated`, the first state of the prescription machine, and the
verification-code hash is the zero word. -/
def defaultPrescription : Prescription :=
  ⟨0, 0, 0, 0, "", "", PrescriptionStatus.Generated, 0, 0, 0⟩

def defaultAIAnalysis : AISymptomAnalysis := ⟨0, 0, "", "", false⟩

/-- Pointwise map update, the storage-write primitive for mappings. -/
def upd {α : Type} (f : Nat → α) (k : Nat) (v : α) : Nat → α :=
  fun x => if x = k then v else f x

theorem upd_same {α : Type} (f : Nat → α) (k : Nat) (v : α) :
    upd f k v k = v := by
  simp [upd]

theorem upd_other {α : Type} (f : Nat → α) (k : Nat) (v : α) (x : Nat)
    (h : x ≠ k) : upd f k v x = f x := by
  simp [upd, h]

/-- AccessControl role grant (idempotent set-insert). -/
def grantRole (r : Role → Address → Bool) (ro : Role) (a : Address) :
    Role → Address → Bool :=
  fun ro2 a2 => if ro2 = ro ∧ a2 = a then true else r ro2 a2

/-- Full storage of the TelemedicineSystem contract, together with the
balance books of the external ETH/USDC/SONIC assets that the contract's
behaviour observes.  The treasuries are the contract's own balances. -/
structure TeleState where
  patients : Address → PatientRec
  doctors : Address → DoctorRec
  labTechnicians : Address → LabTechnicianRec
  pharmacies : Address → PharmacyRec
  appointments : Nat → Appointment
  labTestOrders : Nat → LabTestOrder
  prescriptions : Nat → Prescription
  aiAnalyses : Nat → AISymptomAnalysis
  appointmentCounter : Nat
  labTestCounter : Nat
  prescriptionCounter : Nat
  aiAnalysisCounter : Nat
  roles : Role → Address → Bool
  sonicTreasury : Nat
  sonicBalances : Address → Nat
  sonicAllowanceToContract : Address → Nat
  usdcTreasury : Nat
  usdcBalances : Address → Nat
  usdcAllowanceToContract : Address → Nat
  ethBalances : Address → Nat
  contractEth : Nat
  paused : Bool

/-- Call context: msg.sender, msg.value, block.timestamp. -/
structure Env where
  sender : Address
  value : Nat
  timestamp : Nat

/-- State right after `initialize`: empty storage, ADMIN_ROLE granted to the
deployer, no token balances tracked yet. -/
def initialState (admin : Address) : TeleState where
  patients := fun _ => defaultPatient
  doctors := fun _ => defaultDoctor
  labTechnicians := fun _ => defaultLabTechnician
  pharmacies := fun _ => defaultPharmacy
  appointments := fun _ => defaultAppointment
  labTestOrders := fun _ => defaultLabTestOrder
  prescriptions := fun _ => defaultPrescription
  aiAnalyses := fun _ => defaultAIAnalysis
  appointmentCounter := 0
  labTestCounter := 0
  prescriptionCounter := 0
  aiAnalysisCounter := 0
  roles := grantRole (fun _ _ => false) Role.Admin admin
  sonicTreasury := 0
  sonicBalances := fun _ => 0
  sonicAllowanceToContract := fun _ => 0
  usdcTreasury := 0
  usdcBalances := fun _ => 0
  usdcAllowanceToContract := fun _ => 0
  ethBalances := fun _ => 0
  contractEth := 0
  paused := false

/-- Model of keccak256(abi.encodePacked(uint256, address, uint256)) used to
derive a prescription's verification-code commitment: an executable
injective function standing in for the hash. -/
def keccakPacked (a : Nat) (b : Nat) (c : Nat) : Nat :=
  Nat.pair a (Nat.pair b c) + 1

/-- Model of keccak256 applied to a single 32-byte word: an executable
injective function with no fixed point (real keccak has no known fixed
point; only fixed-point freeness at one concrete input is ever used). -/
def keccakWord (x : Nat) : Nat := x + 1

/-- SONIC transfer out of the contract treasury (the token's own logic,
per its interface: Bool result, a failed transfer moves nothing). -/
def sonicTransferOut (s : TeleState) (dst : Address) (amt : Nat) :
    TeleState × Bool :=
  if amt ≤ s.sonicTreasury then
    ({ s with sonicTreasury := s.sonicTreasury - amt,
              sonicBalances := upd s.sonicBalances dst (s.sonicBalances dst + amt) },
     true)
  else (s, false)

/-- USDC transferFrom(caller, contract, amt): succeeds iff balance and
allowance cover the amount. -/
def usdcPull (s : TeleState) (source : Address) (amt : Nat) :
    TeleState × Bool :=
  if amt ≤ s.usdcBalances source ∧ amt ≤ s.usdcAllowanceToContract source then
    ({ s with usdcBalances := upd s.usdcBalances source (s.usdcBalances source - amt),
              usdcAllowanceToContract :=
                upd s.usdcAllowanceToContract source (s.usdcAllowanceToContract source - amt),
              usdcTreasury := s.usdcTreasury + amt },
     true)
  else (s, false)

/-- SONIC transferFrom(caller, contract, amt). -/
def sonicPull (s : TeleState) (source : Address) (amt : Nat) :
    TeleState × Bool :=
  if amt ≤ s.sonicBalances source ∧ amt ≤ s.sonicAllowanceToContract source then
    ({ s with sonicBalances := upd s.sonicBalances source (s.sonicBalances source - amt),
              sonicAllowanceToContract :=
                upd s.sonicAllowanceToContract source (s.sonicAllowanceToContract source - amt),
              sonicTreasury := s.sonicTreasury + amt },
     true)
  else (s, false)

/-- Gamification bump: mediPoints += n (uint96 overflow unreachable). -/
def addPoints (p : PatientRec) (n : Nat) : PatientRec :=
  { p with gamification := { p.gamification with mediPoints := p.gamification.mediPoints + n } }

/-- The implicit reward trigger `_monetizeData`: if the patient opted in and
a full day passed since the last payout, stamp the payout time and push the
fixed reward from the treasury; the Bool result of the token transfer is
ignored, exactly as in the source.  Never reverts. -/
def monetizeData (s : TeleState) (now : Nat) (p : Address) : TeleState :=
  if (s.patients p).dataSharing = DataSharingStatus.Enabled ∧
      (s.patients p).lastRewardTimestamp + oneDay ≤ now then
    let stamped := { s.patients p with lastRewardTimestamp := now }
    let s1 := { s with patients := upd s.patients p stamped }
    (sonicTransferOut s1 p DATA_MONETIZATION_REWARD).1
  else s

/-- Run a call result against the pre-state: an error reverts to the
pre-state, mirroring EVM transaction semantics. -/
def runOr (s : TeleState) (r : Except String TeleState) : TeleState :=
  match r with
  | Except.ok s2 => s2
  | Except.error _ => s

/-- Bool success test for a call result. -/
def opOk (r : Except String TeleState) : Bool :=
  match r with
  | Except.ok _ => true
  | Except.error _ => false

/-- registerPatient(encryptedSymmetricKey), whenNotPaused. -/
def registerPatient (s : TeleState) (env : Env) (key : String) :
    Except String TeleState :=
  if s.paused then Except.error "Pausable: paused"
  else if (s.patients env.sender).isRegistered then Except.error "Already registered"
  else Except.ok { s with
    patients := upd s.patients env.sender
      ⟨true, key, 0, ⟨0, 1⟩, DataSharingStatus.Disabled, 0⟩,
    roles := grantRole s.roles Role.Patient env.sender }

/-- toggleDataMonetization(enable), onlyRole(PATIENT_ROLE). -/
def toggleDataMonetization (s : TeleState) (env : Env) (enable : Bool) :
    Except String TeleState :=
  if s.roles Role.Patient env.sender then
    if (s.patients env.sender).isRegistered then
      let flag := if enable then DataSharingStatus.Enabled else DataSharingStatus.Disabled
      let p1 := { s.patients env.sender with dataSharing := flag }
      Except.ok { s with patients := upd s.patients env.sender p1 }
    else Except.error "Not registered"
  else Except.error "AccessControl: account is missing role"

/-- claimDataReward(), onlyRole(PATIENT_ROLE) nonReentrant.  The treasury
balance is checked up front; the transfer's Bool result is then ignored as
in the source (it cannot fail after the check). -/
def claimDataReward (s : TeleState) (env : Env) : Except String TeleState :=
  if s.roles Role.Patient env.sender then
    if (s.patients env.sender).dataSharing = DataSharingStatus.Enabled then
      if (s.patients env.sender).lastRewardTimestamp + oneDay ≤ env.timestamp then
        if DATA_MONETIZATION_REWARD ≤ s.sonicTreasury then
          let stamped := { s.patients env.sender with lastRewardTimestamp := env.timestamp }
          let s1 := { s with patients := upd s.patients env.sender stamped }
          Except.ok (sonicTransferOut s1 env.sender DATA_MONETIZATION_REWARD).1
        else Except.error "Insufficient SONIC tokens"
      else Except.error "Reward not yet available"
    else Except.error "Data sharing not enabled"
  else Except.error "AccessControl: account is missing role"

/-- requestAISymptomAnalysis(symptoms), onlyRole(PATIENT_ROLE); fires the
implicit reward trigger after its own effects. -/
def requestAISymptomAnalysis (s : TeleState) (env : Env) (symptoms : String) :
    Except String TeleState :=
  if s.roles Role.Patient env.sender then
    let c := s.aiAnalysisCounter + 1
    let s1 := { s with
      aiAnalysisCounter := c,
      aiAnalyses := upd s.aiAnalyses c ⟨c, env.sender, symptoms, "", false⟩,
      patients := upd s.patients env.sender (addPoints (s.patients env.sender) 10) }
    Except.ok (monetizeData s1 env.timestamp env.sender)
  else Except.error "AccessControl: account is missing role"

/-- Internal _processPayment(type, amount).  The attached msg.value has
already been credited to the contract by the EVM call itself (see
bookAppointment); the ETH branch refunds any excess by push-transfer.  The
token branches pull via transferFrom and require its Bool result. -/
def processPayment (s : TeleState) (env : Env) (pt : PaymentType) (amount : Nat) :
    Except String TeleState :=
  match pt with
  | PaymentType.ETH =>
    if amount ≤ env.value then
      if amount < env.value then
        let excess := env.value - amount
        Except.ok { s with
          contractEth := s.contractEth - excess,
          ethBalances := upd s.ethBalances env.sender (s.ethBalances env.sender + excess) }
      else Except.ok s
    else Except.error "Insufficient ETH"
  | PaymentType.USDC =>
    let r := usdcPull s env.sender amount
    if r.2 then Except.ok r.1 else Except.error "USDC transfer failed"
  | PaymentType.SONIC =>
    let r := sonicPull s env.sender amount
    if r.2 then Except.ok r.1 else Except.error "SONIC transfer failed"

/-- bookAppointment(doctor, timestamp, paymentType, isVideoCall, link),
onlyRole(PATIENT_ROLE) nonReentrant payable.  The first guard is the
EVM-level funding of msg.value from the caller's ETH balance; everything
after mirrors the source's require order. -/
def bookAppointment (s : TeleState) (env : Env) (doctor : Address) (ts : Nat)
    (pt : PaymentType) (isVideoCall : Bool) (link : String) :
    Except String TeleState :=
  if s.roles Role.Patient env.sender then
    if env.value ≤ s.ethBalances env.sender then
      let s0 := { s with
        ethBalances := upd s.ethBalances env.sender (s.ethBalances env.sender - env.value),
        contractEth := s.contractEth + env.value }
      if (s0.doctors doctor).isVerified then
        if env.timestamp + MIN_BOOKING_BUFFER < ts then
          let fee := (s0.doctors doctor).consultationFee
          match processPayment s0 env pt fee with
          | Except.error e => Except.error e
          | Except.ok s1 =>
            let c := s1.appointmentCounter + 1
            let apt : Appointment :=
              ⟨c, env.sender, doctor, ts, AppointmentStatus.Pending, fee, pt,
               if isVideoCall then link else "", isVideoCall⟩
            Except.ok { s1 with
              appointmentCounter := c,
              appointments := upd s1.appointments c apt,
              patients := upd s1.patients env.sender (addPoints (s1.patients env.sender) 20) }
        else Except.error "Too soon"
      else Except.error "Doctor not verified"
    else Except.error "insufficient caller ETH balance"
  else Except.error "AccessControl: account is missing role"

/-- confirmAppointment(id), onlyRole(DOCTOR_ROLE). -/
def confirmAppointment (s : TeleState) (env : Env) (aid : Nat) :
    Except String TeleState :=
  if s.roles Role.Doctor env.sender then
    let apt := s.appointments aid
    if apt.doctor = env.sender then
      if apt.status = AppointmentStatus.Pending then
        let apt1 := { apt with status := AppointmentStatus.Confirmed }
        Except.ok { s with appointments := upd s.appointments aid apt1 }
      else Except.error "Not pending"
    else Except.error "Not your appointment"
  else Except.error "AccessControl: account is missing role"

/-- orderLabTest(patient, testType), onlyRole(DOCTOR_ROLE); fires the
implicit reward trigger for the named patient after creating the order. -/
def orderLabTest (s : TeleState) (env : Env) (patient : Address) (testType : String) :
    Except String TeleState :=
  if s.roles Role.Doctor env.sender then
    if (s.patients patient).isRegistered then
      let c := s.labTestCounter + 1
      let order : LabTestOrder :=
        ⟨c, patient, env.sender, 0, LabTestStatus.Requested, testType, "", "",
         env.timestamp % UINT48_MOD, 0⟩
      let s1 := { s with labTestCounter := c, labTestOrders := upd s.labTestOrders c order }
      Except.ok (monetizeData s1 env.timestamp patient)
    else Except.error "Patient not registered"
  else Except.error "AccessControl: account is missing role"

/-- reviewLabResults(labTestId, medicationDetails, prescriptionIpfsHash),
onlyRole(DOCTOR_ROLE): closes the lab order, mints the prescription with a
fresh commitment and a 30-day expiration, then fires the implicit reward
trigger for the order's patient. -/
def reviewLabResults (s : TeleState) (env : Env) (lid : Nat)
    (medicationDetails : String) (ipfs : String) : Except String TeleState :=
  if s.roles Role.Doctor env.sender then
    let order := s.labTestOrders lid
    if order.doctor = env.sender then
      if order.status = LabTestStatus.ResultsUploaded then
        let order1 := { order with status := LabTestStatus.Reviewed,
                                   completedTimestamp := env.timestamp % UINT48_MOD }
        let s1 := { s with labTestOrders := upd s.labTestOrders lid order1 }
        let pc := s1.prescriptionCounter + 1
        let codeHash := keccakPacked pc env.sender env.timestamp
        let pr : Prescription :=
          ⟨pc, order.patient, env.sender, codeHash, medicationDetails, ipfs,
           PrescriptionStatus.Generated, 0, env.timestamp % UINT48_MOD,
           (env.timestamp + thirtyDays) % UINT48_MOD⟩
        let s2 := { s1 with prescriptionCounter := pc,
                            prescriptions := upd s1.prescriptions pc pr }
        Except.ok (monetizeData s2 env.timestamp order.patient)
      else Except.error "Results not uploaded"
    else Except.error "Not your order"
  else Except.error "AccessControl: account is missing role"

/-- reviewAISymptomAnalysis(id, ipfsHash), onlyRole(DOCTOR_ROLE). -/
def reviewAISymptomAnalysis (s : TeleState) (env : Env) (aid : Nat)
    (ipfs : String) : Except String TeleState :=
  if s.roles Role.Doctor env.sender then
    let a := s.aiAnalyses aid
    if a.doctorReviewed then Except.error "Already reviewed"
    else
      let a1 := { a with analysisIpfsHash := ipfs, doctorReviewed := true }
      Except.ok { s with aiAnalyses := upd s.aiAnalyses aid a1 }
  else Except.error "AccessControl: account is missing role"

/-- collectSample(labTestId, ipfsHash), onlyRole(LAB_TECH_ROLE). -/
def collectSample (s : TeleState) (env : Env) (lid : Nat) (ipfs : String) :
    Except String TeleState :=
  if s.roles Role.LabTech env.sender then
    let order := s.labTestOrders lid
    if order.status = LabTestStatus.Requested then
      let order1 := { order with labTech := env.sender,
                                 sampleCollectionIpfsHash := ipfs,
                                 status := LabTestStatus.Collected }
      Except.ok { s with labTestOrders := upd s.labTestOrders lid order1 }
    else Except.error "Invalid status"
  else Except.error "AccessControl: account is missing role"

/-- uploadLabResults(labTestId, resultsIpfsHash), onlyRole(LAB_TECH_ROLE):
note the ownership require precedes the status require, exactly as in the
source; fires the implicit reward trigger for the order's patient. -/
def uploadLabResults (s : TeleState) (env : Env) (lid : Nat) (ipfs : String) :
    Except String TeleState :=
  if s.roles Role.LabTech env.sender then
    let order := s.labTestOrders lid
    if order.labTech = env.sender then
      if order.status = LabTestStatus.Collected then
        let order1 := { order with resultsIpfsHash := ipfs,
                                   status := LabTestStatus.ResultsUploaded }
        let s1 := { s with labTestOrders := upd s.labTestOrders lid order1 }
        Except.ok (monetizeData s1 env.timestamp order.patient)
      else Except.error "Sample not collected"
    else Except.error "Not your order"
  else Except.error "AccessControl: account is missing role"

/-- verifyPrescription(id, verificationCodeHash), onlyRole(PHARMACY_ROLE):
the caller-supplied bytes32 is compared DIRECTLY against the stored
commitment; the contract performs no hashing here. -/
def verifyPrescription (s : TeleState) (env : Env) (pid : Nat) (supplied : Nat) :
    Except String TeleState :=
  if s.roles Role.Pharmacy env.sender then
    let pr := s.prescriptions pid
    if pr.status = PrescriptionStatus.Generated then
      if pr.verificationCodeHash = supplied then
        let pr1 := { pr with status := PrescriptionStatus.Verified,
                             pharmacy := env.sender }
        Except.ok { s with prescriptions := upd s.prescriptions pid pr1 }
      else Except.error "Invalid code"
    else Except.error "Invalid status"
  else Except.error "AccessControl: account is missing role"

/-- Modelled from the spec: section 4.6 says the caller supplies a CODE
whose HASH must equal the stored commitment, i.e. the contract hashes the
caller-supplied value before comparing.  This definition follows those
words (hash-then-compare); it exists only to be compared against
verifyPrescription, which compares the supplied value directly. -/
def verifyPrescriptionSpec (s : TeleState) (env : Env) (pid : Nat) (code : Nat) :
    Except String TeleState :=
  if s.roles Role.Pharmacy env.sender then
    let pr := s.prescriptions pid
    if pr.status = PrescriptionStatus.Generated then
      if pr.verificationCodeHash = keccakWord code then
        let pr1 := { pr with status := PrescriptionStatus.Verified,
                             pharmacy := env.sender }
        Except.ok { s with prescriptions := upd s.prescriptions pid pr1 }
      else Except.error "Invalid code"
    else Except.error "Invalid status"
  else Except.error "AccessControl: account is missing role"

/-- fulfillPrescription(id), onlyRole(PHARMACY_ROLE): note the source
accepts block.timestamp equal to the expiration timestamp (a non-strict
comparison). -/
def fulfillPrescription (s : TeleState) (env : Env) (pid : Nat) :
    Except String TeleState :=
  if s.roles Role.Pharmacy env.sender then
    let pr := s.prescriptions pid
    if pr.pharmacy = env.sender then
      if pr.status = PrescriptionStatus.Verified then
        if env.timestamp ≤ pr.expirationTimestamp then
          let pr1 := { pr with status := PrescriptionStatus.Fulfilled }
          Except.ok { s with prescriptions := upd s.prescriptions pid pr1 }
        else Except.error "Expired"
      else Except.error "Not verified"
    else Except.error "Not your prescription"
  else Except.error "AccessControl: account is missing role"

/-- verifyDoctor(doctor, license, fee), onlyRole(ADMIN_ROLE). -/
def verifyDoctor (s : TeleState) (env : Env) (doctor : Address)
    (license : String) (fee : Nat) : Except String TeleState :=
  if s.roles Role.Admin env.sender then
    Except.ok { s with doctors := upd s.doctors doctor ⟨true, fee, license⟩,
                       roles := grantRole s.roles Role.Doctor doctor }
  else Except.error "AccessControl: account is missing role"

/-- verifyLabTechnician(labTech, license), onlyRole(ADMIN_ROLE). -/
def verifyLabTechnician (s : TeleState) (env : Env) (labTech : Address)
    (license : String) : Except String TeleState :=
  if s.roles Role.Admin env.sender then
    Except.ok { s with labTechnicians := upd s.labTechnicians labTech ⟨true, license⟩,
                       roles := grantRole s.roles Role.LabTech labTech }
  else Except.error "AccessControl: account is missing role"

/-- registerPharmacy(pharmacy, license), onlyRole(ADMIN_ROLE). -/
def registerPharmacy (s : TeleState) (env : Env) (pharmacy : Address)
    (license : String) : Except String TeleState :=
  if s.roles Role.Admin env.sender then
    Except.ok { s with pharmacies := upd s.pharmacies pharmacy ⟨true, license⟩,
                       roles := grantRole s.roles Role.Pharmacy pharmacy }
  else Except.error "AccessControl: account is missing role"

/-- The implicit reward trigger touches only the patient record of its
target and the SONIC books; every other storage component is unchanged. -/
theorem monetizeData_skel (s : TeleState) (now : Nat) (p : Address) :
    (monetizeData s now p).appointments = s.appointments ∧
    (monetizeData s now p).labTestOrders = s.labTestOrders ∧
    (monetizeData s now p).prescriptions = s.prescriptions ∧
    (monetizeData s now p).aiAnalyses = s.aiAnalyses ∧
    (monetizeData s now p).appointmentCounter = s.appointmentCounter ∧
    (monetizeData s now p).labTestCounter = s.labTestCounter ∧
    (monetizeData s now p).prescriptionCounter = s.prescriptionCounter ∧
    (monetizeData s now p).aiAnalysisCounter = s.aiAnalysisCounter ∧
    (monetizeData s now p).roles = s.roles ∧
    (monetizeData s now p).doctors = s.doctors ∧
    (monetizeData s now p).ethBalances = s.ethBalances ∧
    (monetizeData s now p).contractEth = s.contractEth ∧
    (monetizeData s now p).paused = s.paused := by
  unfold monetizeData sonicTransferOut
  split
  · dsimp only
    split <;> simp
  · simp

/-- The implicit reward trigger preserves every patient field except the
last-reward timestamp, for every address. -/
theorem monetizeData_patient_fields (s : TeleState) (now : Nat) (p q : Address) :
    ((monetizeData s now p).patients q).gamification = (s.patients q).gamification ∧
    ((monetizeData s now p).patients q).isRegistered = (s.patients q).isRegistered ∧
    ((monetizeData s now p).patients q).dataSharing = (s.patients q).dataSharing ∧
    ((monetizeData s now p).patients q).encryptedSymmetricKey
      = (s.patients q).encryptedSymmetricKey := by
  unfold monetizeData sonicTransferOut
  split
  · dsimp only
    by_cases hq : q = p
    · subst hq
      split <;> simp [upd]
    · split <;> simp [upd, hq]
  · simp

/-- If the opt-in flag is off, or the cooldown has not elapsed, or the
treasury cannot cover the reward, the implicit trigger moves no tokens. -/
theorem monetizeData_noPay (s : TeleState) (now : Nat) (p : Address)
    (h : (s.patients p).dataSharing = DataSharingStatus.Disabled ∨
         now < (s.patients p).lastRewardTimestamp + oneDay ∨
         s.sonicTreasury < DATA_MONETIZATION_REWARD) :
    (monetizeData s now p).sonicBalances = s.sonicBalances ∧
    (monetizeData s now p).sonicTreasury = s.sonicTreasury := by
  unfold monetizeData sonicTransferOut
  split
  · rename_i hc
    have hT : s.sonicTreasury < DATA_MONETIZATION_REWARD := by
      rcases h with h | h | h
      · rw [hc.1] at h; cases h
      · omega
      · exact h
    dsimp only
    rw [if_neg (by omega)]
    simp
  · simp

/-- When all three conditions hold, the implicit trigger pays the fixed
reward exactly once and stamps the payout time. -/
theorem monetizeData_pay (s : TeleState) (now : Nat) (p : Address)
    (hEn : (s.patients p).dataSharing = DataSharingStatus.Enabled)
    (hCd : (s.patients p).lastRewardTimestamp + oneDay ≤ now)
    (hT : DATA_MONETIZATION_REWARD ≤ s.sonicTreasury) :
    (monetizeData s now p).sonicBalances p
      = s.sonicBalances p + DATA_MONETIZATION_REWARD ∧
    (monetizeData s now p).sonicTreasury
      = s.sonicTreasury - DATA_MONETIZATION_REWARD ∧
    ((monetizeData s now p).patients p).lastRewardTimestamp = now := by
  unfold monetizeData sonicTransferOut
  rw [if_pos ⟨hEn, hCd⟩]
  dsimp only
  rw [if_pos hT]
  simp [upd]

/-- The state built by requestAISymptomAnalysis before the implicit reward
trigger runs (its own effects: new analysis record, counter bump, points). -/
def requestCore (s : TeleState) (env : Env) (symptoms : String) : TeleState :=
  { s with
    aiAnalysisCounter := s.aiAnalysisCounter + 1,
    aiAnalyses := upd s.aiAnalyses (s.aiAnalysisCounter + 1)
      ⟨s.aiAnalysisCounter + 1, env.sender, symptoms, "", false⟩,
    patients := upd s.patients env.sender (addPoints (s.patients env.sender) 10) }

theorem requestAISymptomAnalysis_eq (s : TeleState) (env : Env) (symptoms : String)
    (hRole : s.roles Role.Patient env.sender = true) :
    requestAISymptomAnalysis s env symptoms
      = Except.ok (monetizeData (requestCore s env symptoms) env.timestamp env.sender) := by
  unfold requestAISymptomAnalysis requestCore
  rw [if_pos hRole]

/-- The state built by orderLabTest before the implicit reward trigger. -/
def orderCore (s : TeleState) (env : Env) (patient : Address) (testType : String) :
    TeleState :=
  { s with
    labTestCounter := s.labTestCounter + 1,
    labTestOrders := upd s.labTestOrders (s.labTestCounter + 1)
      ⟨s.labTestCounter + 1, patient, env.sender, 0, LabTestStatus.Requested, testType,
       "", "", env.timestamp % UINT48_MOD, 0⟩ }

theorem orderLabTest_eq (s : TeleState) (env : Env) (patient : Address)
    (testType : String)
    (hRole : s.roles Role.Doctor env.sender = true)
    (hReg : (s.patients patient).isRegistered = true) :
    orderLabTest s env patient testType
      = Except.ok (monetizeData (orderCore s env patient testType) env.timestamp patient) := by
  unfold orderLabTest orderCore
  rw [if_pos hRole]
  dsimp only
  rw [if_pos hReg]

/-- The state built by uploadLabResults before the implicit reward trigger. -/
def uploadCore (s : TeleState) (env : Env) (lid : Nat) (ipfs : String) : TeleState :=
  let order1 := { s.labTestOrders lid with resultsIpfsHash := ipfs,
                                           status := LabTestStatus.ResultsUploaded }
  { s with labTestOrders := upd s.labTestOrders lid order1 }

theorem uploadLabResults_eq (s : TeleState) (env : Env) (lid : Nat) (ipfs : String)
    (hRole : s.roles Role.LabTech env.sender = true)
    (hOwn : (s.labTestOrders lid).labTech = env.sender)
    (hSt : (s.labTestOrders lid).status = LabTestStatus.Collected) :
    uploadLabResults s env lid ipfs
      = Except.ok (monetizeData (uploadCore s env lid ipfs) env.timestamp
          ((s.labTestOrders lid).patient)) := by
  unfold uploadLabResults uploadCore
  rw [if_pos hRole]
  dsimp only
  rw [if_pos hOwn, if_pos hSt]

/-- The state built by reviewLabResults before the implicit reward trigger:
the closed lab order plus the freshly minted prescription. -/
def reviewCore (s : TeleState) (env : Env) (lid : Nat)
    (medicationDetails : String) (ipfs : String) : TeleState :=
  let order1 := { s.labTestOrders lid with status := LabTestStatus.Reviewed,
                                           completedTimestamp := env.timestamp % UINT48_MOD }
  let pr : Prescription :=
    ⟨s.prescriptionCounter + 1, (s.labTestOrders lid).patient, env.sender,
     keccakPacked (s.prescriptionCounter + 1) env.sender env.timestamp,
     medicationDetails, ipfs, PrescriptionStatus.Generated, 0,
     env.timestamp % UINT48_MOD, (env.timestamp + thirtyDays) % UINT48_MOD⟩
  { s with
    labTestOrders := upd s.labTestOrders lid order1,
    prescriptionCounter := s.prescriptionCounter + 1,
    prescriptions := upd s.prescriptions (s.prescriptionCounter + 1) pr }

theorem reviewLabResults_eq (s : TeleState) (env : Env) (lid : Nat)
    (medicationDetails : String) (ipfs : String)
    (hRole : s.roles Role.Doctor env.sender = true)
    (hOwn : (s.labTestOrders lid).doctor = env.sender)
    (hSt : (s.labTestOrders lid).status = LabTestStatus.ResultsUploaded) :
    reviewLabResults s env lid medicationDetails ipfs
      = Except.ok (monetizeData (reviewCore s env lid medicationDetails ipfs)
          env.timestamp ((s.labTestOrders lid).patient)) := by
  unfold reviewLabResults reviewCore
  rw [if_pos hRole]
  dsimp only
  rw [if_pos hOwn, if_pos hSt]

/-- Base deployment used by the concrete scenarios: admin address 1. -/
def c4Base : TeleState := initialState 1

/-- Admin registers pharmacy 7. -/
def c4WithPharmacy : TeleState := runOr c4Base (registerPharmacy c4Base ⟨1, 0, 0⟩ 7 "PH-LIC")

/-- Admin additionally verifies lab technician 8; no prescription or lab
order has ever been created in this state. -/
def c4Ready : TeleState := runOr c4WithPharmacy (verifyLabTechnician c4WithPharmacy ⟨1, 0, 0⟩ 8 "LT-LIC")

/-- C4: identifiers never created (here 99, with both counters still 0)
hold the all-default struct whose status is the first state of the
respective machine, so verifyPrescription by a Pharmacy caller with the
zero hash succeeds and marks the nonexistent prescription Verified, and
collectSample by a LabTech caller succeeds and produces a Collected record
with the caller recorded as technician: neither operation rejects a
nonexistent identifier. -/
theorem claim4_nonexistent_ids_accepted :
    c4Ready.prescriptionCounter = 0 ∧
    c4Ready.labTestCounter = 0 ∧
    (∀ i : Nat, c4Ready.prescriptions i = defaultPrescription) ∧
    (∀ i : Nat, c4Ready.labTestOrders i = defaultLabTestOrder) ∧
    defaultPrescription.status = PrescriptionStatus.Generated ∧
    defaultPrescription.verificationCodeHash = 0 ∧
    defaultLabTestOrder.status = LabTestStatus.Requested ∧
    opOk (verifyPrescription c4Ready ⟨7, 0, 5⟩ 99 0) = true ∧
    ((runOr c4Ready (verifyPrescription c4Ready ⟨7, 0, 5⟩ 99 0)).prescriptions 99).status
      = PrescriptionStatus.Verified ∧
    ((runOr c4Ready (verifyPrescription c4Ready ⟨7, 0, 5⟩ 99 0)).prescriptions 99).pharmacy = 7 ∧
    opOk (collectSample c4Ready ⟨8, 0, 5⟩ 99 "ipfs-sample") = true ∧
    ((runOr c4Ready (collectSample c4Ready ⟨8, 0, 5⟩ 99 "ipfs-sample")).labTestOrders 99).status
      = LabTestStatus.Collected ∧
    ((runOr c4Ready (collectSample c4Ready ⟨8, 0, 5⟩ 99 "ipfs-sample")).labTestOrders 99).labTech = 8 := by
  refine ⟨by decide, by decide, fun i => rfl, fun i => rfl, by decide, by decide, by decide,
    by decide, by decide, by decide, by decide, by decide, by decide⟩

/-- C9: a first registerPatient from a fresh identity succeeds, creates the
baseline record (sharing disabled, gamification baseline, zero reward
timestamp) and grants the Patient role; a second registerPatient from the
same identity fails with the already-registered error, and by revert
semantics the state, in particular the existing patient record and the
role table, is untouched by the failed call. -/
theorem claim9_register_twice (s : TeleState) (p : Address)
    (key key2 : String) (v v2 t t2 : Nat)
    (hP : s.paused = false)
    (hReg : (s.patients p).isRegistered = false) :
    opOk (registerPatient s ⟨p, v, t⟩ key) = true ∧
    ((runOr s (registerPatient s ⟨p, v, t⟩ key)).patients p).isRegistered = true ∧
    ((runOr s (registerPatient s ⟨p, v, t⟩ key)).patients p).encryptedSymmetricKey = key ∧
    ((runOr s (registerPatient s ⟨p, v, t⟩ key)).patients p).dataSharing
      = DataSharingStatus.Disabled ∧
    ((runOr s (registerPatient s ⟨p, v, t⟩ key)).patients p).gamification = ⟨0, 1⟩ ∧
    ((runOr s (registerPatient s ⟨p, v, t⟩ key)).patients p).lastRewardTimestamp = 0 ∧
    (runOr s (registerPatient s ⟨p, v, t⟩ key)).roles Role.Patient p = true ∧
    registerPatient (runOr s (registerPatient s ⟨p, v, t⟩ key)) ⟨p, v2, t2⟩ key2
      = Except.error "Already registered" ∧
    runOr (runOr s (registerPatient s ⟨p, v, t⟩ key))
        (registerPatient (runOr s (registerPatient s ⟨p, v, t⟩ key)) ⟨p, v2, t2⟩ key2)
      = runOr s (registerPatient s ⟨p, v, t⟩ key) := by
  have h1 : registerPatient s ⟨p, v, t⟩ key = Except.ok { s with
      patients := upd s.patients p ⟨true, key, 0, ⟨0, 1⟩, DataSharingStatus.Disabled, 0⟩,
      roles := grantRole s.roles Role.Patient p } := by
    unfold registerPatient
    rw [hP, hReg]
    simp
  rw [h1]
  unfold runOr registerPatient
  simp [upd, grantRole, hP, opOk]

/-- C10: any bookAppointment call naming a doctor whose record is not
verified fails (either at the role gate or at the doctor-verified require)
and, by revert semantics, leaves the entire state unchanged: no appointment
record, no counter bump, no payment, no gamification change. -/
theorem claim10_book_unverified_doctor (s : TeleState) (env : Env) (d : Address)
    (ts : Nat) (pt : PaymentType) (ivc : Bool) (link : String)
    (h : (s.doctors d).isVerified = false) :
    opOk (bookAppointment s env d ts pt ivc link) = false ∧
    runOr s (bookAppointment s env d ts pt ivc link) = s := by
  unfold bookAppointment
  by_cases hRole : s.roles Role.Patient env.sender = true
  · rw [if_pos hRole]
    by_cases hBal : env.value ≤ s.ethBalances env.sender
    · rw [if_pos hBal]
      dsimp only
      rw [if_neg (by rw [h]; exact fun hc => Bool.noConfusion hc)]
      exact ⟨rfl, rfl⟩
    · rw [if_neg hBal]
      exact ⟨rfl, rfl⟩
  · rw [if_neg hRole]
    exact ⟨rfl, rfl⟩

theorem claim9_register_twice_witness :
    (initialState 1).paused = false ∧
    ((initialState 1).patients 5).isRegistered = false ∧
    opOk (registerPatient (initialState 1) ⟨5, 0, 100⟩ "key1") = true ∧
    registerPatient (runOr (initialState 1) (registerPatient (initialState 1) ⟨5, 0, 100⟩ "key1"))
        ⟨5, 0, 200⟩ "key2" = Except.error "Already registered" := by
  have h := claim9_register_twice (initialState 1) 5 "key1" "key2" 0 0 100 200
    (by decide) (by decide)
  exact ⟨by decide, by decide, h.1, h.2.2.2.2.2.2.2.1⟩

theorem claim10_book_unverified_doctor_witness :
    ((initialState 1).doctors 9).isVerified = false ∧
    opOk (bookAppointment (initialState 1) ⟨5, 0, 0⟩ 9 5000 PaymentType.ETH false "") = false := by
  have h := claim10_book_unverified_doctor (initialState 1) ⟨5, 0, 0⟩ 9 5000
    PaymentType.ETH false "" (by decide)
  exact ⟨by decide, h.1⟩

/-- Patient record after a reward payout stamp at time t (the storage
write performed by both reward paths before the token transfer). -/
def stampReward (s : TeleState) (p : Address) (t : Nat) : TeleState :=
  let stamped := { s.patients p with lastRewardTimestamp := t }
  { s with patients := upd s.patients p stamped }

theorem stampReward_proj (s : TeleState) (p : Address) (t : Nat) :
    ((stampReward s p t).patients p).dataSharing = (s.patients p).dataSharing ∧
    ((stampReward s p t).patients p).lastRewardTimestamp = t ∧
    (stampReward s p t).roles = s.roles ∧
    (stampReward s p t).sonicTreasury = s.sonicTreasury ∧
    (stampReward s p t).sonicBalances = s.sonicBalances := by
  unfold stampReward
  refine ⟨by simp [upd], by simp [upd], rfl, rfl, rfl⟩

/-- C5: from any state in which the registered patient has sharing enabled,
the cooldown (24h since the patient's own last payout) has elapsed and the
treasury covers the reward, the first claimDataReward pays exactly the
fixed reward, moves it from the treasury to the patient, and stamps the
payout time; a second call strictly within 24h of that payout fails with
the too-soon error and, by revert semantics, changes no state. -/
theorem claim5_claim_twice_one_payout (s : TeleState) (p : Address)
    (v1 v2 t1 t2 : Nat)
    (hRole : s.roles Role.Patient p = true)
    (hReg : (s.patients p).isRegistered = true)
    (hEn : (s.patients p).dataSharing = DataSharingStatus.Enabled)
    (hCd : (s.patients p).lastRewardTimestamp + oneDay ≤ t1)
    (hT : DATA_MONETIZATION_REWARD ≤ s.sonicTreasury)
    (hWin : t2 < t1 + oneDay) :
    opOk (claimDataReward s ⟨p, v1, t1⟩) = true ∧
    ((runOr s (claimDataReward s ⟨p, v1, t1⟩)).patients p).lastRewardTimestamp = t1 ∧
    (runOr s (claimDataReward s ⟨p, v1, t1⟩)).sonicBalances p
      = s.sonicBalances p + DATA_MONETIZATION_REWARD ∧
    (runOr s (claimDataReward s ⟨p, v1, t1⟩)).sonicTreasury
      = s.sonicTreasury - DATA_MONETIZATION_REWARD ∧
    claimDataReward (runOr s (claimDataReward s ⟨p, v1, t1⟩)) ⟨p, v2, t2⟩
      = Except.error "Reward not yet available" ∧
    runOr (runOr s (claimDataReward s ⟨p, v1, t1⟩))
        (claimDataReward (runOr s (claimDataReward s ⟨p, v1, t1⟩)) ⟨p, v2, t2⟩)
      = runOr s (claimDataReward s ⟨p, v1, t1⟩) := by
  have e1 : claimDataReward s ⟨p, v1, t1⟩
      = Except.ok (sonicTransferOut (stampReward s p t1) p DATA_MONETIZATION_REWARD).1 := by
    unfold claimDataReward stampReward
    dsimp only
    rw [if_pos hRole, if_pos hEn, if_pos hCd, if_pos hT]
  have hT1 : DATA_MONETIZATION_REWARD ≤ (stampReward s p t1).sonicTreasury := by
    rw [(stampReward_proj s p t1).2.2.2.1]; exact hT
  have e2 : (sonicTransferOut (stampReward s p t1) p DATA_MONETIZATION_REWARD).1
      = { stampReward s p t1 with
          sonicTreasury := (stampReward s p t1).sonicTreasury - DATA_MONETIZATION_REWARD,
          sonicBalances := upd (stampReward s p t1).sonicBalances p ((stampReward s p t1).sonicBalances p + DATA_MONETIZATION_REWARD) } := by
    unfold sonicTransferOut
    rw [if_pos hT1]
  have hSecond : claimDataReward (runOr s (claimDataReward s ⟨p, v1, t1⟩)) ⟨p, v2, t2⟩
      = Except.error "Reward not yet available" := by
    rw [e1]
    unfold runOr
    rw [e2]
    unfold claimDataReward
    dsimp only
    rw [show ({ stampReward s p t1 with
          sonicTreasury := (stampReward s p t1).sonicTreasury - DATA_MONETIZATION_REWARD,
          sonicBalances := upd (stampReward s p t1).sonicBalances p ((stampReward s p t1).sonicBalances p + DATA_MONETIZATION_REWARD) } : TeleState).roles
        = s.roles from (stampReward_proj s p t1).2.2.1]
    rw [if_pos hRole]
    rw [show ({ stampReward s p t1 with
          sonicTreasury := (stampReward s p t1).sonicTreasury - DATA_MONETIZATION_REWARD,
          sonicBalances := upd (stampReward s p t1).sonicBalances p ((stampReward s p t1).sonicBalances p + DATA_MONETIZATION_REWARD) } : TeleState).patients
        = (stampReward s p t1).patients from rfl]
    rw [(stampReward_proj s p t1).1, if_pos hEn]
    rw [(stampReward_proj s p t1).2.1]
    rw [if_neg (by omega)]
  refine ⟨?_, ?_, ?_, ?_, hSecond, ?_⟩
  · rw [e1]; rfl
  · rw [e1]
    unfold runOr
    rw [e2]
    exact (stampReward_proj s p t1).2.1
  · rw [e1]
    unfold runOr
    rw [e2]
    show (upd (stampReward s p t1).sonicBalances p ((stampReward s p t1).sonicBalances p + DATA_MONETIZATION_REWARD)) p = s.sonicBalances p + DATA_MONETIZATION_REWARD
    rw [upd_same, (stampReward_proj s p t1).2.2.2.2]
  · rw [e1]
    unfold runOr
    rw [e2]
    show (stampReward s p t1).sonicTreasury - DATA_MONETIZATION_REWARD = s.sonicTreasury - DATA_MONETIZATION_REWARD
    rw [(stampReward_proj s p t1).2.2.2.1]
  · rw [hSecond]
    rfl

/-- Concrete state used by the C5 witness: registered patient 5 with
sharing enabled, zero last-payout time, treasury exactly one reward. -/
def c5Witness : TeleState :=
  { initialState 1 with
    roles := grantRole (initialState 1).roles Role.Patient 5,
    patients := upd (initialState 1).patients 5 ⟨true, "k", 0, ⟨0, 1⟩, DataSharingStatus.Enabled, 0⟩,
    sonicTreasury := DATA_MONETIZATION_REWARD }

theorem claim5_claim_twice_one_payout_witness :
    opOk (claimDataReward c5Witness ⟨5, 0, 100000⟩) = true ∧
    claimDataReward (runOr c5Witness (claimDataReward c5Witness ⟨5, 0, 100000⟩)) ⟨5, 0, 150000⟩
      = Except.error "Reward not yet available" := by
  have h := claim5_claim_twice_one_payout c5Witness 5 0 0 100000 150000
    (by decide) (by decide) (by decide) (by decide) (by decide) (by decide)
  exact ⟨h.1, h.2.2.2.2.1⟩

/-- Concrete state for C6: pharmacy 7 holds the Pharmacy role and is the
recorded verifying pharmacy of prescription 1, which is Verified and
expires at time 1000. -/
def c6State : TeleState :=
  { initialState 1 with
    roles := grantRole (initialState 1).roles Role.Pharmacy 7,
    pharmacies := upd (initialState 1).pharmacies 7 ⟨true, "PH-LIC"⟩,
    prescriptions := upd (initialState 1).prescriptions 1 ⟨1, 5, 3, 42, "med", "ipfs", PrescriptionStatus.Verified, 7, 0, 1000⟩,
    prescriptionCounter := 1 }

/-- C6 counterexample: the claim says fulfillPrescription succeeds only
strictly before the expiration timestamp, but the source compares with a
non-strict bound, so a call at exactly the expiration instant (timestamp
1000 = expirationTimestamp) succeeds. -/
theorem claim6_counterexample :
    (c6State.prescriptions 1).expirationTimestamp = 1000 ∧
    opOk (fulfillPrescription c6State ⟨7, 0, 1000⟩ 1) = true ∧
    ¬ ((1000 : Nat) < (c6State.prescriptions 1).expirationTimestamp) := by
  refine ⟨by decide, by decide, by decide⟩

/-- C6 amended: fulfillPrescription succeeds exactly when called by the
recorded verifying pharmacy on a Verified prescription at or before the
expiration timestamp (the boundary instant succeeds); when the current
time is strictly after the expiration it fails with the Expired error and,
by revert semantics, the prescription is unchanged; and success implies
all four conditions. -/
theorem claim6_amended (s : TeleState) (env : Env) (pid : Nat) :
    ((s.roles Role.Pharmacy env.sender = true ∧
      (s.prescriptions pid).pharmacy = env.sender ∧
      (s.prescriptions pid).status = PrescriptionStatus.Verified ∧
      env.timestamp ≤ (s.prescriptions pid).expirationTimestamp) →
        opOk (fulfillPrescription s env pid) = true ∧
        ((runOr s (fulfillPrescription s env pid)).prescriptions pid).status
          = PrescriptionStatus.Fulfilled) ∧
    ((s.roles Role.Pharmacy env.sender = true ∧
      (s.prescriptions pid).pharmacy = env.sender ∧
      (s.prescriptions pid).status = PrescriptionStatus.Verified ∧
      (s.prescriptions pid).expirationTimestamp < env.timestamp) →
        fulfillPrescription s env pid = Except.error "Expired" ∧
        runOr s (fulfillPrescription s env pid) = s) ∧
    (opOk (fulfillPrescription s env pid) = true →
      s.roles Role.Pharmacy env.sender = true ∧
      (s.prescriptions pid).pharmacy = env.sender ∧
      (s.prescriptions pid).status = PrescriptionStatus.Verified ∧
      env.timestamp ≤ (s.prescriptions pid).expirationTimestamp) := by
  refine ⟨?_, ?_, ?_⟩
  · rintro ⟨hRole, hOwn, hSt, hExp⟩
    unfold fulfillPrescription
    dsimp only
    rw [if_pos hRole, if_pos hOwn, if_pos hSt, if_pos hExp]
    exact ⟨rfl, by simp [runOr, upd]⟩
  · rintro ⟨hRole, hOwn, hSt, hExp⟩
    unfold fulfillPrescription
    dsimp only
    rw [if_pos hRole, if_pos hOwn, if_pos hSt, if_neg (by omega)]
    exact ⟨rfl, rfl⟩
  · intro h
    unfold fulfillPrescription at h
    dsimp only at h
    by_cases hRole : s.roles Role.Pharmacy env.sender = true
    · rw [if_pos hRole] at h
      by_cases hOwn : (s.prescriptions pid).pharmacy = env.sender
      · rw [if_pos hOwn] at h
        by_cases hSt : (s.prescriptions pid).status = PrescriptionStatus.Verified
        · rw [if_pos hSt] at h
          by_cases hExp : env.timestamp ≤ (s.prescriptions pid).expirationTimestamp
          · exact ⟨hRole, hOwn, hSt, hExp⟩
          · rw [if_neg hExp] at h
            exact absurd h (by simp [opOk])
        · rw [if_neg hSt] at h
          exact absurd h (by simp [opOk])
      · rw [if_neg hOwn] at h
        exact absurd h (by simp [opOk])
    · rw [if_neg hRole] at h
      exact absurd h (by simp [opOk])

theorem claim6_amended_witness :
    (opOk (fulfillPrescription c6State ⟨7, 0, 900⟩ 1) = true ∧
     ((runOr c6State (fulfillPrescription c6State ⟨7, 0, 900⟩ 1)).prescriptions 1).status
       = PrescriptionStatus.Fulfilled) ∧
    fulfillPrescription c6State ⟨7, 0, 2000⟩ 1 = Except.error "Expired" := by
  have hA := (claim6_amended c6State ⟨7, 0, 900⟩ 1).1
    ⟨by decide, by decide, by decide, by decide⟩
  have hB := ((claim6_amended c6State ⟨7, 0, 2000⟩ 1).2.1
    ⟨by decide, by decide, by decide, by decide⟩).1
  exact ⟨hA, hB⟩

/-- Concrete state for C3: pharmacy 7 holds the Pharmacy role; prescription
1 is Generated with stored verification-code commitment 42. -/
def c3State : TeleState :=
  { initialState 1 with
    roles := grantRole (initialState 1).roles Role.Pharmacy 7,
    pharmacies := upd (initialState 1).pharmacies 7 ⟨true, "PH-LIC"⟩,
    prescriptions := upd (initialState 1).prescriptions 1 ⟨1, 5, 3, 42, "med", "ipfs", PrescriptionStatus.Generated, 0, 0, 1000⟩,
    prescriptionCounter := 1 }

/-- C3 counterexample: the claim says the contract hashes the
caller-supplied code and compares the hash to the stored commitment.  In
the source the supplied bytes32 is compared directly: supplying the stored
commitment itself (42) succeeds even though its hash is not 42, while the
spec-following hash-then-compare variant rejects the same input. -/
theorem claim3_counterexample :
    (c3State.prescriptions 1).verificationCodeHash = 42 ∧
    keccakWord 42 ≠ 42 ∧
    opOk (verifyPrescription c3State ⟨7, 0, 5⟩ 1 42) = true ∧
    verifyPrescriptionSpec c3State ⟨7, 0, 5⟩ 1 42 = Except.error "Invalid code" := by
  refine ⟨by decide, by decide, by decide, by rfl⟩

/-- C3 amended: verifyPrescription succeeds exactly for a Pharmacy-role
caller supplying a bytes32 value EQUAL to the stored verification-code
commitment (the contract compares the supplied value directly, performing
no hashing); on a match it sets the status to Verified and records the
caller as the verifying pharmacy, and for any status other than Generated
it fails. -/
theorem claim3_amended (s : TeleState) (env : Env) (pid : Nat) (supplied : Nat) :
    ((s.roles Role.Pharmacy env.sender = true ∧
      (s.prescriptions pid).status = PrescriptionStatus.Generated ∧
      (s.prescriptions pid).verificationCodeHash = supplied) →
        opOk (verifyPrescription s env pid supplied) = true ∧
        ((runOr s (verifyPrescription s env pid supplied)).prescriptions pid).status
          = PrescriptionStatus.Verified ∧
        ((runOr s (verifyPrescription s env pid supplied)).prescriptions pid).pharmacy
          = env.sender) ∧
    (opOk (verifyPrescription s env pid supplied) = true →
      s.roles Role.Pharmacy env.sender = true ∧
      (s.prescriptions pid).status = PrescriptionStatus.Generated ∧
      (s.prescriptions pid).verificationCodeHash = supplied) ∧
    ((s.prescriptions pid).status ≠ PrescriptionStatus.Generated →
      opOk (verifyPrescription s env pid supplied) = false) := by
  refine ⟨?_, ?_, ?_⟩
  · rintro ⟨hRole, hSt, hHash⟩
    unfold verifyPrescription
    dsimp only
    rw [if_pos hRole, if_pos hSt, if_pos hHash]
    exact ⟨rfl, by simp [runOr, upd], by simp [runOr, upd]⟩
  · intro h
    unfold verifyPrescription at h
    dsimp only at h
    by_cases hRole : s.roles Role.Pharmacy env.sender = true
    · rw [if_pos hRole] at h
      by_cases hSt : (s.prescriptions pid).status = PrescriptionStatus.Generated
      · rw [if_pos hSt] at h
        by_cases hHash : (s.prescriptions pid).verificationCodeHash = supplied
        · exact ⟨hRole, hSt, hHash⟩
        · rw [if_neg hHash] at h
          exact absurd h (by simp [opOk])
      · rw [if_neg hSt] at h
        exact absurd h (by simp [opOk])
    · rw [if_neg hRole] at h
      exact absurd h (by simp [opOk])
  · intro hSt
    unfold verifyPrescription
    dsimp only
    by_cases hRole : s.roles Role.Pharmacy env.sender = true
    · rw [if_pos hRole, if_neg hSt]
      rfl
    · rw [if_neg hRole]
      rfl

theorem claim3_amended_witness :
    (opOk (verifyPrescription c3State ⟨7, 0, 5⟩ 1 42) = true ∧
     ((runOr c3State (verifyPrescription c3State ⟨7, 0, 5⟩ 1 42)).prescriptions 1).status
       = PrescriptionStatus.Verified ∧
     ((runOr c3State (verifyPrescription c3State ⟨7, 0, 5⟩ 1 42)).prescriptions 1).pharmacy = 7) ∧
    opOk (verifyPrescription c6State ⟨7, 0, 5⟩ 1 42) = false := by
  have hA := (claim3_amended c3State ⟨7, 0, 5⟩ 1 42).1 ⟨by decide, by decide, by decide⟩
  have hB := (claim3_amended c6State ⟨7, 0, 5⟩ 1 42).2.2 (by decide)
  exact ⟨hA, hB⟩

/-- C7: for a native-currency booking whose attached value covers the fee,
the call succeeds, the contract ends holding exactly fee more ETH, the
caller ends exactly fee poorer (attached value minus the refunded excess),
and the appointment record is created with the fee; when the attached
value is below the fee the whole booking fails with the insufficient-ETH
error and, by revert semantics, no record is created and no funds move. -/
theorem claim7_eth_payment_roundtrip (s : TeleState) (p d : Address)
    (v t ts : Nat) (ivc : Bool) (link : String)
    (hRole : s.roles Role.Patient p = true)
    (hDoc : (s.doctors d).isVerified = true)
    (hTs : t + MIN_BOOKING_BUFFER < ts)
    (hBal : v ≤ s.ethBalances p) :
    (((s.doctors d).consultationFee ≤ v) →
       opOk (bookAppointment s ⟨p, v, t⟩ d ts PaymentType.ETH ivc link) = true ∧
       (runOr s (bookAppointment s ⟨p, v, t⟩ d ts PaymentType.ETH ivc link)).contractEth
         = s.contractEth + (s.doctors d).consultationFee ∧
       (runOr s (bookAppointment s ⟨p, v, t⟩ d ts PaymentType.ETH ivc link)).ethBalances p
         = s.ethBalances p - (s.doctors d).consultationFee ∧
       (runOr s (bookAppointment s ⟨p, v, t⟩ d ts PaymentType.ETH ivc link)).appointmentCounter
         = s.appointmentCounter + 1 ∧
       (runOr s (bookAppointment s ⟨p, v, t⟩ d ts PaymentType.ETH ivc link)).appointments
           (s.appointmentCounter + 1)
         = ⟨s.appointmentCounter + 1, p, d, ts, AppointmentStatus.Pending,
            (s.doctors d).consultationFee, PaymentType.ETH,
            if ivc then link else "", ivc⟩) ∧
    ((v < (s.doctors d).consultationFee) →
       bookAppointment s ⟨p, v, t⟩ d ts PaymentType.ETH ivc link
         = Except.error "Insufficient ETH" ∧
       runOr s (bookAppointment s ⟨p, v, t⟩ d ts PaymentType.ETH ivc link) = s) := by
  constructor
  · intro hFee
    unfold bookAppointment processPayment
    dsimp only
    rw [if_pos hRole, if_pos hBal, if_pos hDoc, if_pos hTs, if_pos hFee]
    by_cases hlt : (s.doctors d).consultationFee < v
    · rw [if_pos hlt]
      dsimp only
      refine ⟨rfl, ?_, ?_, rfl, ?_⟩
      · show s.contractEth + v - (v - (s.doctors d).consultationFee)
          = s.contractEth + (s.doctors d).consultationFee
        omega
      · simp [runOr, upd]
        omega
      · simp [runOr, upd]
    · rw [if_neg hlt]
      dsimp only
      have hEq : (s.doctors d).consultationFee = v := by omega
      refine ⟨rfl, ?_, ?_, rfl, ?_⟩
      · show s.contractEth + v = s.contractEth + (s.doctors d).consultationFee
        omega
      · simp [runOr, upd]
        omega
      · simp [runOr, upd]
  · intro hFee
    unfold bookAppointment processPayment
    dsimp only
    rw [if_pos hRole, if_pos hBal, if_pos hDoc, if_pos hTs, if_neg (by omega)]
    exact ⟨rfl, rfl⟩

/-- Concrete state for the C7 witness: registered patient 5 with 1000 wei,
verified doctor 3 with fee 100. -/
def c7State : TeleState :=
  { initialState 1 with
    roles := grantRole (grantRole (initialState 1).roles Role.Patient 5) Role.Doctor 3,
    patients := upd (initialState 1).patients 5 ⟨true, "k", 0, ⟨0, 1⟩, DataSharingStatus.Disabled, 0⟩,
    doctors := upd (initialState 1).doctors 3 ⟨true, 100, "DOC-LIC"⟩,
    ethBalances := upd (initialState 1).ethBalances 5 1000 }

theorem claim7_eth_payment_roundtrip_witness :
    (opOk (bookAppointment c7State ⟨5, 250, 10⟩ 3 5000 PaymentType.ETH false "") = true ∧
     (runOr c7State (bookAppointment c7State ⟨5, 250, 10⟩ 3 5000 PaymentType.ETH false "")).contractEth = 100 ∧
     (runOr c7State (bookAppointment c7State ⟨5, 250, 10⟩ 3 5000 PaymentType.ETH false "")).ethBalances 5 = 900) ∧
    bookAppointment c7State ⟨5, 40, 10⟩ 3 5000 PaymentType.ETH false ""
      = Except.error "Insufficient ETH" := by
  have hA := (claim7_eth_payment_roundtrip c7State 5 3 250 10 5000 false ""
    (by decide) (by decide) (by decide) (by decide)).1 (by decide)
  have hB := (claim7_eth_payment_roundtrip c7State 5 3 40 10 5000 false ""
    (by decide) (by decide) (by decide) (by decide)).2 (by decide)
  exact ⟨⟨hA.1, hA.2.1, hA.2.2.1⟩, hB.1⟩

/-- The implicit reward trigger is a no-op when the opt-in/cooldown guard
is false. -/
theorem monetizeData_skip (s : TeleState) (now : Nat) (p : Address)
    (h : ¬ ((s.patients p).dataSharing = DataSharingStatus.Enabled ∧
            (s.patients p).lastRewardTimestamp + oneDay ≤ now)) :
    monetizeData s now p = s := by
  unfold monetizeData
  rw [if_neg h]

/-- Deployment used by the C2 scenario: treasury holds two rewards. -/
def c2Start : TeleState :=
  { initialState 1 with sonicTreasury := 2 * DATA_MONETIZATION_REWARD }

/-- Patient p registers and immediately enables data sharing, both at time
tE.  Registration sets lastRewardTimestamp to 0; enabling does not touch
it. -/
def c2Enrolled (p : Address) (tE : Nat) : TeleState :=
  let s1 := runOr c2Start (registerPatient c2Start ⟨p, 0, tE⟩ "key")
  runOr s1 (toggleDataMonetization s1 ⟨p, 0, tE⟩ true)

/-- First qualifying action (symptom submission) at time t1. -/
def c2One (p : Address) (tE t1 : Nat) : TeleState :=
  runOr (c2Enrolled p tE)
    (requestAISymptomAnalysis (c2Enrolled p tE) ⟨p, 0, t1⟩ "s1")

/-- Second qualifying action at time t2. -/
def c2Two (p : Address) (tE t1 t2 : Nat) : TeleState :=
  runOr (c2One p tE t1)
    (requestAISymptomAnalysis (c2One p tE t1) ⟨p, 0, t2⟩ "s2")

/-- Third qualifying action at time t3. -/
def c2Three (p : Address) (tE t1 t2 t3 : Nat) : TeleState :=
  runOr (c2Two p tE t1 t2)
    (requestAISymptomAnalysis (c2Two p tE t1 t2) ⟨p, 0, t3⟩ "s3")

/-- C2 counterexample: patient 5 registers and enables data sharing at
time 1000000 and submits a symptom analysis at that same instant, i.e.
zero seconds (far less than 24 hours) after enabling.  The claim says the
implicit reward does not pay on this first action; in the code the
cooldown is measured from lastRewardTimestamp, which registration set to
0, so the trigger pays immediately and the balance increases by the full
reward. -/
theorem claim2_counterexample :
    ((c2Enrolled 5 1000000).patients 5).dataSharing = DataSharingStatus.Enabled ∧
    ((c2Enrolled 5 1000000).patients 5).lastRewardTimestamp = 0 ∧
    (c2Enrolled 5 1000000).sonicBalances 5 = 0 ∧
    opOk (requestAISymptomAnalysis (c2Enrolled 5 1000000) ⟨5, 0, 1000000⟩ "cough") = true ∧
    (runOr (c2Enrolled 5 1000000)
        (requestAISymptomAnalysis (c2Enrolled 5 1000000) ⟨5, 0, 1000000⟩ "cough")).sonicBalances 5
      = DATA_MONETIZATION_REWARD ∧
    DATA_MONETIZATION_REWARD ≠ 0 := by
  refine ⟨by decide, by decide, by decide, by decide, by decide, by decide⟩

/-- C2 amended: for a patient who registers and immediately enables data
sharing, the implicit reward DOES pay on the first qualifying action (the
cooldown is measured from the last payout timestamp, which registration
set to 0, so it is already elapsed at any t1 at least one day after the
epoch); a second action strictly within 24h of that first payout pays
nothing while still succeeding; a third action at least 24h after the
first payout pays exactly once more, so two payouts in total. -/
theorem claim2_amended (p : Address) (tE t1 t2 t3 : Nat)
    (h1 : oneDay ≤ t1) (h2 : t2 < t1 + oneDay) (h3 : t1 + oneDay ≤ t3) :
    opOk (requestAISymptomAnalysis (c2Enrolled p tE) ⟨p, 0, t1⟩ "s1") = true ∧
    (c2One p tE t1).sonicBalances p = DATA_MONETIZATION_REWARD ∧
    opOk (requestAISymptomAnalysis (c2One p tE t1) ⟨p, 0, t2⟩ "s2") = true ∧
    (c2Two p tE t1 t2).sonicBalances p = DATA_MONETIZATION_REWARD ∧
    opOk (requestAISymptomAnalysis (c2Two p tE t1 t2) ⟨p, 0, t3⟩ "s3") = true ∧
    (c2Three p tE t1 t2 t3).sonicBalances p = 2 * DATA_MONETIZATION_REWARD := by
  have hP : (c2Enrolled p tE).patients p
      = ⟨true, "key", 0, ⟨0, 1⟩, DataSharingStatus.Enabled, 0⟩ := by
    simp [c2Enrolled, c2Start, initialState, registerPatient, toggleDataMonetization,
      runOr, grantRole, upd, defaultPatient]
  have hRole : (c2Enrolled p tE).roles Role.Patient p = true := by
    simp [c2Enrolled, c2Start, initialState, registerPatient, toggleDataMonetization,
      runOr, grantRole, upd, defaultPatient]
  have hTre : (c2Enrolled p tE).sonicTreasury = 2 * DATA_MONETIZATION_REWARD := by
    simp [c2Enrolled, c2Start, initialState, registerPatient, toggleDataMonetization,
      runOr, grantRole, upd, defaultPatient]
  have hBal : (c2Enrolled p tE).sonicBalances p = 0 := by
    simp [c2Enrolled, c2Start, initialState, registerPatient, toggleDataMonetization,
      runOr, grantRole, upd, defaultPatient]
  -- step 1: the first action pays immediately
  have e1 := requestAISymptomAnalysis_eq (c2Enrolled p tE) ⟨p, 0, t1⟩ "s1" hRole
  have hRC1p : ((requestCore (c2Enrolled p tE) ⟨p, 0, t1⟩ "s1").patients p)
      = ⟨true, "key", 0, ⟨10, 1⟩, DataSharingStatus.Enabled, 0⟩ := by
    simp [requestCore, upd, hP, addPoints]
  have hPay1 := monetizeData_pay (requestCore (c2Enrolled p tE) ⟨p, 0, t1⟩ "s1") t1 p
    (by rw [hRC1p]) (by rw [hRC1p]; show 0 + oneDay ≤ t1; omega)
    (by show DATA_MONETIZATION_REWARD ≤ (c2Enrolled p tE).sonicTreasury
        rw [hTre]; omega)
  have hOneEq : c2One p tE t1
      = monetizeData (requestCore (c2Enrolled p tE) ⟨p, 0, t1⟩ "s1") t1 p := by
    simp only [c2One, e1, runOr]
  have hOneBal : (c2One p tE t1).sonicBalances p = DATA_MONETIZATION_REWARD := by
    rw [hOneEq, hPay1.1]
    show (c2Enrolled p tE).sonicBalances p + DATA_MONETIZATION_REWARD = _
    rw [hBal]
    omega
  have hOneLast : ((c2One p tE t1).patients p).lastRewardTimestamp = t1 := by
    rw [hOneEq]; exact hPay1.2.2
  have hOneShare : ((c2One p tE t1).patients p).dataSharing = DataSharingStatus.Enabled := by
    rw [hOneEq, (monetizeData_patient_fields _ t1 p p).2.2.1]
    rw [hRC1p]
  have hOneTre : (c2One p tE t1).sonicTreasury = DATA_MONETIZATION_REWARD := by
    rw [hOneEq, hPay1.2.1]
    show (c2Enrolled p tE).sonicTreasury - DATA_MONETIZATION_REWARD = _
    rw [hTre]; omega
  have hOneRole : (c2One p tE t1).roles Role.Patient p = true := by
    rw [hOneEq, (monetizeData_skel _ t1 p).2.2.2.2.2.2.2.2.1]
    exact hRole
  -- step 2: within the cooldown window the trigger is silent
  have e2 := requestAISymptomAnalysis_eq (c2One p tE t1) ⟨p, 0, t2⟩ "s2" hOneRole
  have hRC2last : ((requestCore (c2One p tE t1) ⟨p, 0, t2⟩ "s2").patients p).lastRewardTimestamp = t1 := by
    show ((upd (c2One p tE t1).patients p (addPoints ((c2One p tE t1).patients p) 10)) p).lastRewardTimestamp = t1
    rw [upd_same]
    exact hOneLast
  have hskip2 : monetizeData (requestCore (c2One p tE t1) ⟨p, 0, t2⟩ "s2") t2 p
      = requestCore (c2One p tE t1) ⟨p, 0, t2⟩ "s2" := by
    apply monetizeData_skip
    rintro ⟨-, hb⟩
    rw [hRC2last] at hb
    omega
  have hTwoEq : c2Two p tE t1 t2 = requestCore (c2One p tE t1) ⟨p, 0, t2⟩ "s2" := by
    simp only [c2Two, e2, runOr, hskip2]
  have hTwoBal : (c2Two p tE t1 t2).sonicBalances p = DATA_MONETIZATION_REWARD := by
    rw [hTwoEq]
    show (c2One p tE t1).sonicBalances p = _
    exact hOneBal
  have hTwoLast : ((c2Two p tE t1 t2).patients p).lastRewardTimestamp = t1 := by
    rw [hTwoEq]; exact hRC2last
  have hTwoShare : ((c2Two p tE t1 t2).patients p).dataSharing = DataSharingStatus.Enabled := by
    rw [hTwoEq]
    show ((upd (c2One p tE t1).patients p (addPoints ((c2One p tE t1).patients p) 10)) p).dataSharing = _
    rw [upd_same]
    exact hOneShare
  have hTwoTre : (c2Two p tE t1 t2).sonicTreasury = DATA_MONETIZATION_REWARD := by
    rw [hTwoEq]
    show (c2One p tE t1).sonicTreasury = _
    exact hOneTre
  have hTwoRole : (c2Two p tE t1 t2).roles Role.Patient p = true := by
    rw [hTwoEq]
    show (c2One p tE t1).roles Role.Patient p = true
    exact hOneRole
  -- step 3: after a full day from the first payout the trigger pays again
  have e3 := requestAISymptomAnalysis_eq (c2Two p tE t1 t2) ⟨p, 0, t3⟩ "s3" hTwoRole
  have hRC3last : ((requestCore (c2Two p tE t1 t2) ⟨p, 0, t3⟩ "s3").patients p).lastRewardTimestamp = t1 := by
    show ((upd (c2Two p tE t1 t2).patients p (addPoints ((c2Two p tE t1 t2).patients p) 10)) p).lastRewardTimestamp = t1
    rw [upd_same]
    exact hTwoLast
  have hRC3share : ((requestCore (c2Two p tE t1 t2) ⟨p, 0, t3⟩ "s3").patients p).dataSharing = DataSharingStatus.Enabled := by
    show ((upd (c2Two p tE t1 t2).patients p (addPoints ((c2Two p tE t1 t2).patients p) 10)) p).dataSharing = _
    rw [upd_same]
    exact hTwoShare
  have hPay3 := monetizeData_pay (requestCore (c2Two p tE t1 t2) ⟨p, 0, t3⟩ "s3") t3 p
    hRC3share (by rw [hRC3last]; omega)
    (by show DATA_MONETIZATION_REWARD ≤ (c2Two p tE t1 t2).sonicTreasury
        rw [hTwoTre])
  have hThreeEq : c2Three p tE t1 t2 t3
      = monetizeData (requestCore (c2Two p tE t1 t2) ⟨p, 0, t3⟩ "s3") t3 p := by
    simp only [c2Three, e3, runOr]
  have hThreeBal : (c2Three p tE t1 t2 t3).sonicBalances p = 2 * DATA_MONETIZATION_REWARD := by
    rw [hThreeEq, hPay3.1]
    show (c2Two p tE t1 t2).sonicBalances p + DATA_MONETIZATION_REWARD = _
    rw [hTwoBal]; omega
  refine ⟨?_, hOneBal, ?_, hTwoBal, ?_, hThreeBal⟩
  · rw [e1]; rfl
  · rw [e2]; rfl
  · rw [e3]; rfl

theorem claim2_amended_witness :
    opOk (requestAISymptomAnalysis (c2Enrolled 5 50) ⟨5, 0, 86400⟩ "s1") = true ∧
    (c2One 5 50 86400).sonicBalances 5 = DATA_MONETIZATION_REWARD ∧
    (c2Two 5 50 86400 86500).sonicBalances 5 = DATA_MONETIZATION_REWARD ∧
    (c2Three 5 50 86400 86500 172800).sonicBalances 5 = 2 * DATA_MONETIZATION_REWARD := by
  have h := claim2_amended 5 50 86400 86500 172800 (by decide) (by decide) (by decide)
  exact ⟨h.1, h.2.1, h.2.2.2.1, h.2.2.2.2.2⟩

/-- Any of the three conditions under which the implicit reward trigger
must not pay for patient q at time now: opt-out, cooldown not elapsed, or
a treasury too small for the transfer to go through. -/
abbrev rewardBlocked (s : TeleState) (now : Nat) (q : Address) : Prop :=
  (s.patients q).dataSharing = DataSharingStatus.Disabled ∨
  now < (s.patients q).lastRewardTimestamp + oneDay ∨
  s.sonicTreasury < DATA_MONETIZATION_REWARD

/-- Transfer of the no-payout fact through an intermediate state that
agrees with s on the monetization-relevant components. -/
theorem noPay_through (s sPre : TeleState) (now : Nat) (q : Address)
    (hshare : (sPre.patients q).dataSharing = (s.patients q).dataSharing)
    (hlast : (sPre.patients q).lastRewardTimestamp = (s.patients q).lastRewardTimestamp)
    (ht : sPre.sonicTreasury = s.sonicTreasury)
    (hb : sPre.sonicBalances = s.sonicBalances)
    (hblock : rewardBlocked s now q) :
    (monetizeData sPre now q).sonicBalances = s.sonicBalances ∧
    (monetizeData sPre now q).sonicTreasury = s.sonicTreasury := by
  have h := monetizeData_noPay sPre now q (by
    rcases hblock with h | h | h
    · exact Or.inl (by rw [hshare]; exact h)
    · exact Or.inr (Or.inl (by rw [hlast]; exact h))
    · exact Or.inr (Or.inr (by rw [ht]; exact h)))
  exact ⟨by rw [h.1, hb], by rw [h.2, ht]⟩

/-- C1: for each of the four operations that fire the implicit reward
trigger, the trigger can never make the operation fail: whenever the
operation's own preconditions hold, it succeeds with its own state changes
applied, for every value of the data-sharing flag, the last-reward
timestamp and the treasury; and under any of the blocking conditions
(sharing disabled, cooldown not elapsed, payout not coverable by the
treasury) no tokens move at all. -/
theorem claim1_trigger_never_fails (s : TeleState) (env : Env)
    (symptoms testType medDetails ipfs res : String) (patient : Address)
    (lid lid2 : Nat) :
    (s.roles Role.Patient env.sender = true →
      opOk (requestAISymptomAnalysis s env symptoms) = true ∧
      (runOr s (requestAISymptomAnalysis s env symptoms)).aiAnalysisCounter
        = s.aiAnalysisCounter + 1 ∧
      (runOr s (requestAISymptomAnalysis s env symptoms)).aiAnalyses (s.aiAnalysisCounter + 1)
        = ⟨s.aiAnalysisCounter + 1, env.sender, symptoms, "", false⟩ ∧
      ((runOr s (requestAISymptomAnalysis s env symptoms)).patients env.sender).gamification.mediPoints
        = (s.patients env.sender).gamification.mediPoints + 10 ∧
      (rewardBlocked s env.timestamp env.sender →
        (runOr s (requestAISymptomAnalysis s env symptoms)).sonicBalances = s.sonicBalances ∧
        (runOr s (requestAISymptomAnalysis s env symptoms)).sonicTreasury = s.sonicTreasury)) ∧
    ((s.roles Role.Doctor env.sender = true ∧ (s.patients patient).isRegistered = true) →
      opOk (orderLabTest s env patient testType) = true ∧
      (runOr s (orderLabTest s env patient testType)).labTestCounter = s.labTestCounter + 1 ∧
      (runOr s (orderLabTest s env patient testType)).labTestOrders (s.labTestCounter + 1)
        = ⟨s.labTestCounter + 1, patient, env.sender, 0, LabTestStatus.Requested, testType,
           "", "", env.timestamp % UINT48_MOD, 0⟩ ∧
      (rewardBlocked s env.timestamp patient →
        (runOr s (orderLabTest s env patient testType)).sonicBalances = s.sonicBalances ∧
        (runOr s (orderLabTest s env patient testType)).sonicTreasury = s.sonicTreasury)) ∧
    ((s.roles Role.LabTech env.sender = true ∧
      (s.labTestOrders lid).labTech = env.sender ∧
      (s.labTestOrders lid).status = LabTestStatus.Collected) →
      opOk (uploadLabResults s env lid res) = true ∧
      ((runOr s (uploadLabResults s env lid res)).labTestOrders lid).status
        = LabTestStatus.ResultsUploaded ∧
      ((runOr s (uploadLabResults s env lid res)).labTestOrders lid).resultsIpfsHash = res ∧
      (rewardBlocked s env.timestamp ((s.labTestOrders lid).patient) →
        (runOr s (uploadLabResults s env lid res)).sonicBalances = s.sonicBalances ∧
        (runOr s (uploadLabResults s env lid res)).sonicTreasury = s.sonicTreasury)) ∧
    ((s.roles Role.Doctor env.sender = true ∧
      (s.labTestOrders lid2).doctor = env.sender ∧
      (s.labTestOrders lid2).status = LabTestStatus.ResultsUploaded) →
      opOk (reviewLabResults s env lid2 medDetails ipfs) = true ∧
      ((runOr s (reviewLabResults s env lid2 medDetails ipfs)).labTestOrders lid2).status
        = LabTestStatus.Reviewed ∧
      (runOr s (reviewLabResults s env lid2 medDetails ipfs)).prescriptionCounter
        = s.prescriptionCounter + 1 ∧
      ((runOr s (reviewLabResults s env lid2 medDetails ipfs)).prescriptions
          (s.prescriptionCounter + 1)).status = PrescriptionStatus.Generated ∧
      ((runOr s (reviewLabResults s env lid2 medDetails ipfs)).prescriptions
          (s.prescriptionCounter + 1)).patient = (s.labTestOrders lid2).patient ∧
      (rewardBlocked s env.timestamp ((s.labTestOrders lid2).patient) →
        (runOr s (reviewLabResults s env lid2 medDetails ipfs)).sonicBalances = s.sonicBalances ∧
        (runOr s (reviewLabResults s env lid2 medDetails ipfs)).sonicTreasury = s.sonicTreasury)) := by
  refine ⟨?_, ?_, ?_, ?_⟩
  · intro hRole
    rw [requestAISymptomAnalysis_eq s env symptoms hRole]
    simp only [runOr]
    refine ⟨rfl, ?_, ?_, ?_, ?_⟩
    · rw [(monetizeData_skel _ env.timestamp env.sender).2.2.2.2.2.2.2.1]
      rfl
    · rw [(monetizeData_skel _ env.timestamp env.sender).2.2.2.1]
      show upd s.aiAnalyses (s.aiAnalysisCounter + 1) _ (s.aiAnalysisCounter + 1) = _
      rw [upd_same]
    · rw [(monetizeData_patient_fields _ env.timestamp env.sender env.sender).1]
      show ((upd s.patients env.sender (addPoints (s.patients env.sender) 10)) env.sender).gamification.mediPoints = _
      rw [upd_same]
      rfl
    · intro hblock
      exact noPay_through s _ env.timestamp env.sender
        (by show ((upd s.patients env.sender (addPoints (s.patients env.sender) 10)) env.sender).dataSharing = _
            rw [upd_same]; rfl)
        (by show ((upd s.patients env.sender (addPoints (s.patients env.sender) 10)) env.sender).lastRewardTimestamp = _
            rw [upd_same]; rfl)
        rfl rfl hblock
  · rintro ⟨hRole, hReg⟩
    rw [orderLabTest_eq s env patient testType hRole hReg]
    simp only [runOr]
    refine ⟨rfl, ?_, ?_, ?_⟩
    · rw [(monetizeData_skel _ env.timestamp patient).2.2.2.2.2.1]
      rfl
    · rw [(monetizeData_skel _ env.timestamp patient).2.1]
      show upd s.labTestOrders (s.labTestCounter + 1) _ (s.labTestCounter + 1) = _
      rw [upd_same]
    · intro hblock
      exact noPay_through s _ env.timestamp patient rfl rfl rfl rfl hblock
  · rintro ⟨hRole, hOwn, hSt⟩
    rw [uploadLabResults_eq s env lid res hRole hOwn hSt]
    simp only [runOr]
    refine ⟨rfl, ?_, ?_, ?_⟩
    · rw [(monetizeData_skel _ env.timestamp _).2.1]
      show (upd s.labTestOrders lid _ lid).status = _
      rw [upd_same]
    · rw [(monetizeData_skel _ env.timestamp _).2.1]
      show (upd s.labTestOrders lid _ lid).resultsIpfsHash = _
      rw [upd_same]
    · intro hblock
      exact noPay_through s _ env.timestamp _ rfl rfl rfl rfl hblock
  · rintro ⟨hRole, hOwn, hSt⟩
    rw [reviewLabResults_eq s env lid2 medDetails ipfs hRole hOwn hSt]
    simp only [runOr]
    refine ⟨rfl, ?_, ?_, ?_, ?_, ?_⟩
    · rw [(monetizeData_skel _ env.timestamp _).2.1]
      show (upd s.labTestOrders lid2 _ lid2).status = _
      rw [upd_same]
    · rw [(monetizeData_skel _ env.timestamp _).2.2.2.2.2.2.1]
      rfl
    · rw [(monetizeData_skel _ env.timestamp _).2.2.1]
      show (upd s.prescriptions (s.prescriptionCounter + 1) _ (s.prescriptionCounter + 1)).status = _
      rw [upd_same]
    · rw [(monetizeData_skel _ env.timestamp _).2.2.1]
      show (upd s.prescriptions (s.prescriptionCounter + 1) _ (s.prescriptionCounter + 1)).patient = _
      rw [upd_same]
    · intro hblock
      exact noPay_through s _ env.timestamp _ rfl rfl rfl rfl hblock

/-- Concrete state for the C1 witness: patient 5 registered with sharing
DISABLED and an empty treasury (both blocking conditions live), doctor 3
and lab technician 4, one Collected order (1) and one ResultsUploaded
order (2). -/
def c1State : TeleState :=
  { initialState 1 with
    roles := grantRole (grantRole (grantRole (initialState 1).roles Role.Patient 5) Role.Doctor 3) Role.LabTech 4,
    patients := upd (initialState 1).patients 5 ⟨true, "k", 0, ⟨0, 1⟩, DataSharingStatus.Disabled, 0⟩,
    labTestOrders := upd (upd (initialState 1).labTestOrders 1 ⟨1, 5, 3, 4, LabTestStatus.Collected, "t", "h", "", 10, 0⟩) 2 ⟨2, 5, 3, 4, LabTestStatus.ResultsUploaded, "t2", "h2", "r2", 10, 0⟩,
    labTestCounter := 2,
    sonicTreasury := 0 }

theorem claim1_trigger_never_fails_witness :
    c1State.roles Role.Patient 5 = true ∧
    rewardBlocked c1State 1000 5 ∧
    opOk (requestAISymptomAnalysis c1State ⟨5, 0, 1000⟩ "sym") = true ∧
    (runOr c1State (requestAISymptomAnalysis c1State ⟨5, 0, 1000⟩ "sym")).sonicTreasury
      = c1State.sonicTreasury ∧
    opOk (orderLabTest c1State ⟨3, 0, 1000⟩ 5 "blood") = true ∧
    opOk (uploadLabResults c1State ⟨4, 0, 1000⟩ 1 "res") = true ∧
    opOk (reviewLabResults c1State ⟨3, 0, 1000⟩ 2 "med" "ipfs") = true := by
  have h1 := (claim1_trigger_never_fails c1State ⟨5, 0, 1000⟩ "sym" "blood" "med" "ipfs" "res" 5 1 2).1 (by decide)
  have h2 := (claim1_trigger_never_fails c1State ⟨3, 0, 1000⟩ "sym" "blood" "med" "ipfs" "res" 5 1 2).2.1 ⟨by decide, by decide⟩
  have h3 := (claim1_trigger_never_fails c1State ⟨4, 0, 1000⟩ "sym" "blood" "med" "ipfs" "res" 5 1 2).2.2.1 ⟨by decide, by decide, by decide⟩
  have h4 := (claim1_trigger_never_fails c1State ⟨3, 0, 1000⟩ "sym" "blood" "med" "ipfs" "res" 5 1 2).2.2.2 ⟨by decide, by decide, by decide⟩
  exact ⟨by decide, by decide, h1.1, (h1.2.2.2.2 (by decide)).2, h2.1, h3.1, h4.1⟩

/-- One successful call moves a lab order's status along at most one edge
of the linear chain Requested -> Collected -> ResultsUploaded -> Reviewed
(or leaves it unchanged). -/
def labForward (a b : LabTestStatus) : Prop :=
  a = b ∨
  (a = LabTestStatus.Requested ∧ b = LabTestStatus.Collected) ∨
  (a = LabTestStatus.Collected ∧ b = LabTestStatus.ResultsUploaded) ∨
  (a = LabTestStatus.ResultsUploaded ∧ b = LabTestStatus.Reviewed)

theorem sonicTransferOut_labs (s : TeleState) (dst : Address) (amt : Nat) :
    ((sonicTransferOut s dst amt).1).labTestOrders = s.labTestOrders := by
  unfold sonicTransferOut
  split <;> rfl

theorem usdcPull_labs (s : TeleState) (src : Address) (amt : Nat) :
    ((usdcPull s src amt).1).labTestOrders = s.labTestOrders := by
  unfold usdcPull
  split <;> rfl

theorem sonicPull_labs (s : TeleState) (src : Address) (amt : Nat) :
    ((sonicPull s src amt).1).labTestOrders = s.labTestOrders := by
  unfold sonicPull
  split <;> rfl

theorem processPayment_ok_labs (s : TeleState) (env : Env) (pt : PaymentType)
    (amt : Nat) (s2 : TeleState) (h : processPayment s env pt amt = Except.ok s2) :
    s2.labTestOrders = s.labTestOrders := by
  unfold processPayment at h
  dsimp only at h
  split at h
  · split at h
    · split at h <;> (cases h; rfl)
    · cases h
  · split at h
    · cases h
      have hu := usdcPull_labs s env.sender amt
      exact hu
    · cases h
  · split at h
    · cases h
      have hu := sonicPull_labs s env.sender amt
      exact hu
    · cases h

theorem registerPatient_ok_labs (s : TeleState) (env : Env) (key : String)
    (s2 : TeleState) (h : registerPatient s env key = Except.ok s2) :
    s2.labTestOrders = s.labTestOrders := by
  unfold registerPatient at h
  split at h
  · cases h
  · split at h
    · cases h
    · cases h; rfl

theorem toggle_ok_labs (s : TeleState) (env : Env) (b : Bool)
    (s2 : TeleState) (h : toggleDataMonetization s env b = Except.ok s2) :
    s2.labTestOrders = s.labTestOrders := by
  unfold toggleDataMonetization at h
  dsimp only at h
  split at h
  · split at h
    · cases h; rfl
    · cases h
  · cases h

theorem claimDataReward_ok_labs (s : TeleState) (env : Env)
    (s2 : TeleState) (h : claimDataReward s env = Except.ok s2) :
    s2.labTestOrders = s.labTestOrders := by
  unfold claimDataReward at h
  dsimp only at h
  split at h
  · split at h
    · split at h
      · split at h
        · cases h
          have hu := sonicTransferOut_labs (stampReward s env.sender env.timestamp) env.sender DATA_MONETIZATION_REWARD
          exact hu
        · cases h
      · cases h
    · cases h
  · cases h

theorem bookAppointment_ok_labs (s : TeleState) (env : Env) (d : Address)
    (ts : Nat) (pt : PaymentType) (ivc : Bool) (link : String)
    (s2 : TeleState) (h : bookAppointment s env d ts pt ivc link = Except.ok s2) :
    s2.labTestOrders = s.labTestOrders := by
  unfold bookAppointment at h
  dsimp only at h
  split at h
  · split at h
    · split at h
      · split at h
        · split at h
          · cases h
          · rename_i s1 hpp
            cases h
            have hu := processPayment_ok_labs _ env pt _ s1 hpp
            exact hu
        · cases h
      · cases h
    · cases h
  · cases h

theorem requestAI_ok_labs (s : TeleState) (env : Env) (symptoms : String)
    (s2 : TeleState) (h : requestAISymptomAnalysis s env symptoms = Except.ok s2) :
    s2.labTestOrders = s.labTestOrders := by
  unfold requestAISymptomAnalysis at h
  dsimp only at h
  split at h
  · cases h
    rw [(monetizeData_skel _ env.timestamp env.sender).2.1]
  · cases h

theorem confirmAppointment_ok_labs (s : TeleState) (env : Env) (aid : Nat)
    (s2 : TeleState) (h : confirmAppointment s env aid = Except.ok s2) :
    s2.labTestOrders = s.labTestOrders := by
  unfold confirmAppointment at h
  dsimp only at h
  split at h
  · split at h
    · split at h
      · cases h; rfl
      · cases h
    · cases h
  · cases h

theorem reviewAI_ok_labs (s : TeleState) (env : Env) (aid : Nat) (ipfs : String)
    (s2 : TeleState) (h : reviewAISymptomAnalysis s env aid ipfs = Except.ok s2) :
    s2.labTestOrders = s.labTestOrders := by
  unfold reviewAISymptomAnalysis at h
  dsimp only at h
  split at h
  · split at h
    · cases h
    · cases h; rfl
  · cases h

theorem verifyPrescription_ok_labs (s : TeleState) (env : Env) (pid supplied : Nat)
    (s2 : TeleState) (h : verifyPrescription s env pid supplied = Except.ok s2) :
    s2.labTestOrders = s.labTestOrders := by
  unfold verifyPrescription at h
  dsimp only at h
  split at h
  · split at h
    · split at h
      · cases h; rfl
      · cases h
    · cases h
  · cases h

theorem fulfillPrescription_ok_labs (s : TeleState) (env : Env) (pid : Nat)
    (s2 : TeleState) (h : fulfillPrescription s env pid = Except.ok s2) :
    s2.labTestOrders = s.labTestOrders := by
  unfold fulfillPrescription at h
  dsimp only at h
  split at h
  · split at h
    · split at h
      · split at h
        · cases h; rfl
        · cases h
      · cases h
    · cases h
  · cases h

theorem verifyDoctor_ok_labs (s : TeleState) (env : Env) (d : Address)
    (lic : String) (fee : Nat)
    (s2 : TeleState) (h : verifyDoctor s env d lic fee = Except.ok s2) :
    s2.labTestOrders = s.labTestOrders := by
  unfold verifyDoctor at h
  split at h
  · cases h; rfl
  · cases h

theorem verifyLabTechnician_ok_labs (s : TeleState) (env : Env) (lt : Address)
    (lic : String)
    (s2 : TeleState) (h : verifyLabTechnician s env lt lic = Except.ok s2) :
    s2.labTestOrders = s.labTestOrders := by
  unfold verifyLabTechnician at h
  split at h
  · cases h; rfl
  · cases h

theorem registerPharmacy_ok_labs (s : TeleState) (env : Env) (ph : Address)
    (lic : String)
    (s2 : TeleState) (h : registerPharmacy s env ph lic = Except.ok s2) :
    s2.labTestOrders = s.labTestOrders := by
  unfold registerPharmacy at h
  split at h
  · cases h; rfl
  · cases h

theorem orderLabTest_ok_labs (s : TeleState) (env : Env) (patient : Address)
    (tt : String) (s2 : TeleState) (h : orderLabTest s env patient tt = Except.ok s2) :
    ∀ j : Nat, j ≤ s.labTestCounter → s2.labTestOrders j = s.labTestOrders j := by
  unfold orderLabTest at h
  dsimp only at h
  split at h
  · split at h
    · cases h
      intro j hj
      rw [(monetizeData_skel _ env.timestamp patient).2.1]
      exact upd_other _ _ _ j (by omega)
    · cases h
  · cases h

theorem collectSample_ok_labs (s : TeleState) (env : Env) (lid : Nat)
    (ipfs : String) (s2 : TeleState) (h : collectSample s env lid ipfs = Except.ok s2) :
    (s.labTestOrders lid).status = LabTestStatus.Requested ∧
    (s2.labTestOrders lid).status = LabTestStatus.Collected ∧
    ∀ j : Nat, j ≠ lid → s2.labTestOrders j = s.labTestOrders j := by
  unfold collectSample at h
  dsimp only at h
  split at h
  · split at h
    · rename_i hst
      cases h
      refine ⟨hst, ?_, ?_⟩
      · show ((upd s.labTestOrders lid _) lid).status = _
        rw [upd_same]
      · intro j hj
        exact upd_other _ _ _ j hj
    · cases h
  · cases h

theorem uploadLabResults_ok_labs (s : TeleState) (env : Env) (lid : Nat)
    (ipfs : String) (s2 : TeleState) (h : uploadLabResults s env lid ipfs = Except.ok s2) :
    (s.labTestOrders lid).status = LabTestStatus.Collected ∧
    (s2.labTestOrders lid).status = LabTestStatus.ResultsUploaded ∧
    ∀ j : Nat, j ≠ lid → s2.labTestOrders j = s.labTestOrders j := by
  unfold uploadLabResults at h
  dsimp only at h
  split at h
  · split at h
    · split at h
      · rename_i hst
        cases h
        rw [(monetizeData_skel _ env.timestamp _).2.1]
        refine ⟨hst, ?_, ?_⟩
        · show ((upd s.labTestOrders lid _) lid).status = _
          rw [upd_same]
        · intro j hj
          exact upd_other _ _ _ j hj
      · cases h
    · cases h
  · cases h

theorem reviewLabResults_ok_labs (s : TeleState) (env : Env) (lid : Nat)
    (md ipfs : String) (s2 : TeleState)
    (h : reviewLabResults s env lid md ipfs = Except.ok s2) :
    (s.labTestOrders lid).status = LabTestStatus.ResultsUploaded ∧
    (s2.labTestOrders lid).status = LabTestStatus.Reviewed ∧
    ∀ j : Nat, j ≠ lid → s2.labTestOrders j = s.labTestOrders j := by
  unfold reviewLabResults at h
  dsimp only at h
  split at h
  · split at h
    · split at h
      · rename_i hst
        cases h
        rw [(monetizeData_skel _ env.timestamp _).2.1]
        refine ⟨hst, ?_, ?_⟩
        · show ((upd s.labTestOrders lid _) lid).status = _
          rw [upd_same]
        · intro j hj
          exact upd_other _ _ _ j hj
      · cases h
    · cases h
  · cases h

/-- One successful externally triggered mutating call of the contract
(handleUserOp only re-dispatches one of these same entry points). -/
inductive Step : TeleState → TeleState → Prop
  | stepRegisterPatient (s : TeleState) (env : Env) (key : String) (s2 : TeleState)
      (h : registerPatient s env key = Except.ok s2) : Step s s2
  | stepVerifyDoctor (s : TeleState) (env : Env) (d : Address) (lic : String) (fee : Nat)
      (s2 : TeleState) (h : verifyDoctor s env d lic fee = Except.ok s2) : Step s s2
  | stepVerifyLabTechnician (s : TeleState) (env : Env) (lt : Address) (lic : String)
      (s2 : TeleState) (h : verifyLabTechnician s env lt lic = Except.ok s2) : Step s s2
  | stepRegisterPharmacy (s : TeleState) (env : Env) (ph : Address) (lic : String)
      (s2 : TeleState) (h : registerPharmacy s env ph lic = Except.ok s2) : Step s s2
  | stepBookAppointment (s : TeleState) (env : Env) (d : Address) (ts : Nat)
      (pt : PaymentType) (ivc : Bool) (link : String) (s2 : TeleState)
      (h : bookAppointment s env d ts pt ivc link = Except.ok s2) : Step s s2
  | stepConfirmAppointment (s : TeleState) (env : Env) (aid : Nat) (s2 : TeleState)
      (h : confirmAppointment s env aid = Except.ok s2) : Step s s2
  | stepRequestAI (s : TeleState) (env : Env) (symptoms : String) (s2 : TeleState)
      (h : requestAISymptomAnalysis s env symptoms = Except.ok s2) : Step s s2
  | stepReviewAI (s : TeleState) (env : Env) (aid : Nat) (ipfs : String) (s2 : TeleState)
      (h : reviewAISymptomAnalysis s env aid ipfs = Except.ok s2) : Step s s2
  | stepToggle (s : TeleState) (env : Env) (b : Bool) (s2 : TeleState)
      (h : toggleDataMonetization s env b = Except.ok s2) : Step s s2
  | stepClaimReward (s : TeleState) (env : Env) (s2 : TeleState)
      (h : claimDataReward s env = Except.ok s2) : Step s s2
  | stepOrderLabTest (s : TeleState) (env : Env) (patient : Address) (tt : String)
      (s2 : TeleState) (h : orderLabTest s env patient tt = Except.ok s2) : Step s s2
  | stepCollectSample (s : TeleState) (env : Env) (lid : Nat) (ipfs : String)
      (s2 : TeleState) (h : collectSample s env lid ipfs = Except.ok s2) : Step s s2
  | stepUploadLabResults (s : TeleState) (env : Env) (lid : Nat) (ipfs : String)
      (s2 : TeleState) (h : uploadLabResults s env lid ipfs = Except.ok s2) : Step s s2
  | stepReviewLabResults (s : TeleState) (env : Env) (lid : Nat) (md ipfs : String)
      (s2 : TeleState) (h : reviewLabResults s env lid md ipfs = Except.ok s2) : Step s s2
  | stepVerifyPrescription (s : TeleState) (env : Env) (pid supplied : Nat)
      (s2 : TeleState) (h : verifyPrescription s env pid supplied = Except.ok s2) : Step s s2
  | stepFulfillPrescription (s : TeleState) (env : Env) (pid : Nat) (s2 : TeleState)
      (h : fulfillPrescription s env pid = Except.ok s2) : Step s s2

/-- C8 amended: across every successful call of every entry point, the
status of every existing lab order (identifier at most the current
counter) either stays put or advances along exactly one edge of the linear
chain Requested -> Collected -> ResultsUploaded -> Reviewed — no
back-edges, no skip-edges; and uploadLabResults on an order still in
Requested always fails and, by revert semantics, leaves the order
unchanged (the failure is the not-your-order ownership error for any
caller other than the still-unset zero technician, the sample-not-collected
status error otherwise). -/
theorem claim8_amended :
    (∀ s s2 : TeleState, Step s s2 → ∀ i : Nat, i ≤ s.labTestCounter →
       labForward ((s.labTestOrders i).status) ((s2.labTestOrders i).status)) ∧
    (∀ (s : TeleState) (env : Env) (lid : Nat) (r : String),
       (s.labTestOrders lid).status = LabTestStatus.Requested →
       opOk (uploadLabResults s env lid r) = false ∧
       runOr s (uploadLabResults s env lid r) = s) := by
  constructor
  · intro s s2 st i hi
    cases st with
    | stepRegisterPatient env key s2 h =>
        rw [registerPatient_ok_labs _ env key _ h]; exact Or.inl rfl
    | stepVerifyDoctor env d lic fee s2 h =>
        rw [verifyDoctor_ok_labs _ env d lic fee _ h]; exact Or.inl rfl
    | stepVerifyLabTechnician env lt lic s2 h =>
        rw [verifyLabTechnician_ok_labs _ env lt lic _ h]; exact Or.inl rfl
    | stepRegisterPharmacy env ph lic s2 h =>
        rw [registerPharmacy_ok_labs _ env ph lic _ h]; exact Or.inl rfl
    | stepBookAppointment env d ts pt ivc link s2 h =>
        rw [bookAppointment_ok_labs _ env d ts pt ivc link _ h]; exact Or.inl rfl
    | stepConfirmAppointment env aid s2 h =>
        rw [confirmAppointment_ok_labs _ env aid _ h]; exact Or.inl rfl
    | stepRequestAI env symptoms s2 h =>
        rw [requestAI_ok_labs _ env symptoms _ h]; exact Or.inl rfl
    | stepReviewAI env aid ipfs s2 h =>
        rw [reviewAI_ok_labs _ env aid ipfs _ h]; exact Or.inl rfl
    | stepToggle env b s2 h =>
        rw [toggle_ok_labs _ env b _ h]; exact Or.inl rfl
    | stepClaimReward env s2 h =>
        rw [claimDataReward_ok_labs _ env _ h]; exact Or.inl rfl
    | stepOrderLabTest env patient tt s2 h =>
        rw [orderLabTest_ok_labs _ env patient tt _ h i hi]; exact Or.inl rfl
    | stepCollectSample env lid ipfs s2 h =>
        have hc := collectSample_ok_labs _ env lid ipfs _ h
        by_cases hil : i = lid
        · subst hil
          exact Or.inr (Or.inl ⟨hc.1, hc.2.1⟩)
        · rw [hc.2.2 i hil]; exact Or.inl rfl
    | stepUploadLabResults env lid ipfs s2 h =>
        have hc := uploadLabResults_ok_labs _ env lid ipfs _ h
        by_cases hil : i = lid
        · subst hil
          exact Or.inr (Or.inr (Or.inl ⟨hc.1, hc.2.1⟩))
        · rw [hc.2.2 i hil]; exact Or.inl rfl
    | stepReviewLabResults env lid md ipfs s2 h =>
        have hc := reviewLabResults_ok_labs _ env lid md ipfs _ h
        by_cases hil : i = lid
        · subst hil
          exact Or.inr (Or.inr (Or.inr ⟨hc.1, hc.2.1⟩))
        · rw [hc.2.2 i hil]; exact Or.inl rfl
    | stepVerifyPrescription env pid supplied s2 h =>
        rw [verifyPrescription_ok_labs _ env pid supplied _ h]; exact Or.inl rfl
    | stepFulfillPrescription env pid s2 h =>
        rw [fulfillPrescription_ok_labs _ env pid _ h]; exact Or.inl rfl
  · intro s env lid r hst
    have hfail : ∃ e, uploadLabResults s env lid r = Except.error e := by
      unfold uploadLabResults
      dsimp only
      by_cases hRole : s.roles Role.LabTech env.sender = true
      · rw [if_pos hRole]
        by_cases hOwn : (s.labTestOrders lid).labTech = env.sender
        · rw [if_pos hOwn, if_neg (by rw [hst]; decide)]
          exact ⟨"Sample not collected", rfl⟩
        · rw [if_neg hOwn]
          exact ⟨"Not your order", rfl⟩
      · rw [if_neg hRole]
        exact ⟨"AccessControl: account is missing role", rfl⟩
    rcases hfail with ⟨e, he⟩
    rw [he]
    exact ⟨rfl, rfl⟩

/-- Concrete state for C8: lab technician 6 holds the LabTech role; order
1 is Requested with the technician field still unset (zero address). -/
def cs8 : TeleState :=
  { initialState 1 with
    roles := grantRole (initialState 1).roles Role.LabTech 6,
    labTechnicians := upd (initialState 1).labTechnicians 6 ⟨true, "LT-LIC"⟩,
    labTestOrders := upd (initialState 1).labTestOrders 1 ⟨1, 5, 3, 0, LabTestStatus.Requested, "t", "", "", 10, 0⟩,
    labTestCounter := 1 }

/-- C8 counterexample: uploadLabResults on a Requested order invoked by
the lab technician fails with the not-your-order OWNERSHIP error (the
technician field is still the zero address), not with the
sample-not-collected status error the claim names — the ownership require
precedes the status require in the source. -/
theorem claim8_counterexample :
    (cs8.labTestOrders 1).status = LabTestStatus.Requested ∧
    cs8.roles Role.LabTech 6 = true ∧
    uploadLabResults cs8 ⟨6, 0, 50⟩ 1 "res" = Except.error "Not your order" ∧
    "Not your order" ≠ "Sample not collected" := by
  refine ⟨by decide, by decide, by rfl, by decide⟩

theorem claim8_amended_witness :
    (cs8.labTestOrders 1).status = LabTestStatus.Requested ∧
    labForward ((cs8.labTestOrders 1).status)
      (((runOr cs8 (collectSample cs8 ⟨6, 0, 50⟩ 1 "h")).labTestOrders 1).status) ∧
    opOk (uploadLabResults cs8 ⟨6, 0, 50⟩ 1 "res") = false := by
  have hstep : Step cs8 (runOr cs8 (collectSample cs8 ⟨6, 0, 50⟩ 1 "h")) :=
    Step.stepCollectSample cs8 ⟨6, 0, 50⟩ 1 "h" _ (by rfl)
  exact ⟨by decide, claim8_amended.1 cs8 _ hstep 1 (by decide),
    (claim8_amended.2 cs8 ⟨6, 0, 50⟩ 1 "res" (by decide)).1⟩
